import Mathlib

/-!
Verification development for the Cisco-to-Cradlepoint zone-firewall
converter (`cisco_to_cradlepoint_converter_v3.py`).

The Python source is shallowly embedded as executable Lean definitions:

* Python `str` operations are modelled by the `py*` helpers below, written
  over `List Char` with structural recursion so that all definitions
  evaluate inside the kernel.  Each helper's doc comment names the Python
  operation it models.
* Python dicts keyed by user-supplied names are modelled as
  insertion-ordered association lists (`keyedInsert` replaces an existing
  entry in place, exactly like a dict assignment to an existing key).
* `uuid.uuid4()` is modelled as a deterministic fresh-identifier supply
  (`generateId` applied to a running counter).  The program only relies on
  the generated ids being opaque and pairwise distinct, never on their
  concrete text, so the claims are insensitive to this substitution.
* Fallible lookups return `Option`.
-/

/-! ### Python string primitives -/

/-- Character code as a natural number, used for all character tests. -/
def charNat (c : Char) : Nat := c.toNat

/-- Whitespace test covering the ASCII whitespace recognised by Python's
`str.strip` / `str.split` for the configuration texts modelled here
(tab, LF, VT, FF, CR, space). -/
def pyIsSpaceChar (c : Char) : Bool :=
  charNat c == 32 || (9 ≤ charNat c && charNat c ≤ 13)

/-- Digit test, models `str.isdigit` character-wise for ASCII digits. -/
def pyIsDigitChar (c : Char) : Bool :=
  48 ≤ charNat c && charNat c ≤ 57

/-- Models Python `str.strip()`: drop leading and trailing whitespace. -/
def pyStrip (s : String) : String :=
  ⟨((s.data.dropWhile pyIsSpaceChar).reverse.dropWhile pyIsSpaceChar).reverse⟩

/-- Models Python `a + b` on strings. -/
def strCat (a b : String) : String := ⟨a.data ++ b.data⟩

/-- Models Python `s.startswith(pre)`. -/
def pyStartsWith (s pre : String) : Bool := pre.data.isPrefixOf s.data

/-- Substring occurrence on character lists. -/
def listHasInfix (sub : List Char) : List Char → Bool
  | [] => sub.isEmpty
  | c :: rest => sub.isPrefixOf (c :: rest) || listHasInfix sub rest

/-- Models Python `sub in s` (substring containment). -/
def pyContains (s sub : String) : Bool := listHasInfix sub.data s.data

/-- Splitting worker for `str.split(sep)`, fuelled to stay structural.
The fuel is an upper bound on the recursion depth; callers pass
`l.length + 1`, which always suffices because every step consumes at
least one character of `l` (the separator is non-empty). -/
def splitSubAux (sep : List Char) : Nat → List Char → List (List Char)
  | _, [] => [[]]
  | 0, l => [l]
  | fuel + 1, c :: cs =>
    if sep.isPrefixOf (c :: cs) then
      [] :: splitSubAux sep fuel ((c :: cs).drop sep.length)
    else
      match splitSubAux sep fuel cs with
      | [] => [[c]]
      | seg :: rest => (c :: seg) :: rest

/-- Models Python `s.split(sep)` for a non-empty separator `sep`
(splits at every occurrence; `n` occurrences yield `n + 1` pieces). -/
def pySplitOnSub (s sep : String) : List String :=
  if sep.data.isEmpty then [s]
  else (splitSubAux sep.data (s.data.length + 1) s.data).map (fun l => ⟨l⟩)

/-- Models Python `s.replace(old, new)` for non-empty `old`: Python's
`s.replace(old, new)` equals `new.join(s.split(old))`. -/
def pyReplace (s old new : String) : String :=
  match pySplitOnSub s old with
  | [] => s
  | seg :: rest => ⟨rest.foldl (fun acc piece => acc ++ new.data ++ piece.data) seg.data⟩

/-- Whitespace-splitting worker for `str.split()` (no argument):
runs of whitespace separate tokens, empty tokens are not produced. -/
def splitWsAux : List Char → List Char → List (List Char)
  | [], acc => if acc.isEmpty then [] else [acc.reverse]
  | c :: cs, acc =>
    if pyIsSpaceChar c then
      if acc.isEmpty then splitWsAux cs [] else acc.reverse :: splitWsAux cs []
    else
      splitWsAux cs (c :: acc)

/-- Models Python `s.split()` (split on whitespace runs, no empties). -/
def pySplitWs (s : String) : List String :=
  (splitWsAux s.data []).map (fun l => ⟨l⟩)

/-- ASCII lower-casing of one character, models `str.lower` per character. -/
def pyLowerChar (c : Char) : Char :=
  if 65 ≤ charNat c && charNat c ≤ 90 then Char.ofNat (charNat c + 32) else c

/-- ASCII upper-casing of one character, models `str.upper` per character. -/
def pyUpperChar (c : Char) : Char :=
  if 97 ≤ charNat c && charNat c ≤ 122 then Char.ofNat (charNat c - 32) else c

/-- Models Python `s.lower()` (ASCII range, which covers the inputs used). -/
def pyLower (s : String) : String := ⟨s.data.map pyLowerChar⟩

/-- Models Python `s.upper()` (ASCII range, which covers the inputs used). -/
def pyUpper (s : String) : String := ⟨s.data.map pyUpperChar⟩

/-- Models Python `s.isdigit()` for ASCII digit strings. -/
def pyIsDigits (s : String) : Bool :=
  !s.data.isEmpty && s.data.all pyIsDigitChar

/-- Digit-list to number worker. -/
def digitsToNat : List Char → Nat → Nat
  | [], acc => acc
  | c :: cs, acc => digitsToNat cs (acc * 10 + (charNat c - 48))

/-- Models Python `int(s)` restricted to plain ASCII digit strings,
returning `none` where Python raises `ValueError`.  (The converter only
ever feeds port-like tokens to `int`; signed or whitespace-padded forms
never reach these call sites in the modelled paths.) -/
def pyInt? (s : String) : Option Nat :=
  if pyIsDigits s then some (digitsToNat s.data 0) else none

/-- Models Python `str(n)` for naturals. -/
def natToStr (n : Nat) : String := ⟨(Nat.toDigits 10 n)⟩

/-- Lexicographic order on character lists by code point, the order
Python uses to sort strings. -/
def charListLe : List Char → List Char → Bool
  | [], _ => true
  | _ :: _, [] => false
  | a :: as, b :: bs =>
    if charNat a < charNat b then true
    else if charNat b < charNat a then false
    else charListLe as bs

/-- String order used by `sorted` on identity-id strings. -/
def strLeB (a b : String) : Bool := charListLe a.data b.data

/-- Insertion into a `le`-sorted list. -/
def insertSortedBy (le : α → α → Bool) (x : α) : List α → List α
  | [] => [x]
  | y :: ys => if le x y then x :: y :: ys else y :: insertSortedBy le x ys

/-- Models Python `sorted(...)` (ascending).  The converter only sorts
duplicate-free collections or collections where the order among equal
elements is unobservable, so stability is irrelevant. -/
def sortByB (le : α → α → Bool) (l : List α) : List α :=
  l.foldl (fun acc x => insertSortedBy le x acc) []

/-- Models Python `'_'.join(xs)`. -/
def joinWith (sep : String) : List String → String
  | [] => ""
  | x :: xs => xs.foldl (fun acc y => strCat (strCat acc sep) y) x

/-- Set-like insertion preserving first-seen order (models `set.add`
followed by iteration; the converter always sorts afterwards, so only
membership matters). -/
def setInsertNat (n : Nat) (l : List Nat) : List Nat :=
  if l.contains n then l else l ++ [n]

/-- Duplicate removal keeping the first occurrence, models the
seen-set/append loops in `_merge_rules`. -/
def dedupKeepFirst (l : List String) : List String :=
  l.foldl (fun acc x => if acc.contains x then acc else acc ++ [x]) []

/-! ### Data model

Embeddings of the converter's record shapes.  Python stores these as
string-keyed dicts; each becomes a structure whose fields carry the same
names (`_id_` becomes `uid`).  Optional dict keys become `Option` fields:
`none` models "key absent". -/

/-- One entry of `self.zones` (the `devices` sub-dict, populated only by
`parse_interfaces` and `create_internet_zone`, is not inspected by any
property studied here and is omitted). -/
structure Zone where
  uid : String
  name : String
deriving Repr, DecidableEq

/-- One entry of an object group's `objects` list. -/
inductive OgEntry where
  /-- `{'type': 'host', 'value': ip}` -/
  | host (value : String)
  /-- `{'type': 'network', 'network': n, 'mask': m}` -/
  | network (network mask : String)
  /-- `{'type': 'range', 'start': a, 'end': b}` (network range) -/
  | range (startIp endIp : String)
  /-- `{'type': 'port', 'port': int}` -/
  | portNum (port : Nat)
  /-- `{'type': 'port', 'port': str}` (unresolved port name) -/
  | portName (port : String)
  /-- `{'type': 'range', 'start_port': a, 'end_port': b}` (service range) -/
  | portRange (startPort endPort : Nat)
  /-- `{'type': 'object_group', 'reference': name}` -/
  | groupRef (reference : String)
deriving Repr, DecidableEq

/-- One entry of `self.object_groups`. -/
structure ObjectGroup where
  name : String
  /-- `network`, `service`, ... (second token of the directive) -/
  type : String
  objects : List OgEntry
deriving Repr, DecidableEq

/-- One parsed ACL rule (`_parse_acl_rule` result dict). -/
structure AclRule where
  /-- `allow` or `deny` -/
  action : String
  protocol : String
  protocol_id : Nat
  service_object_group : Option String := none
  source_object_group : Option String := none
  destination_object_group : Option String := none
  source_ip : Option String := none
  destination_ip : Option String := none
  source_port : Option String := none
  destination_port : Option String := none
deriving Repr, DecidableEq

/-- One entry of `self.acls`. -/
structure Acl where
  name : String
  rules : List AclRule
deriving Repr, DecidableEq

/-- One entry of `self.class_maps`. -/
structure ClassMap where
  name : String
  acl_references : List String
  object_group_references : List String
deriving Repr, DecidableEq

/-- One element of a policy map's `class_actions` list.  The `actions`
sub-list is omitted: `parse_policy_maps` strips every line before testing
`line.startswith('  ')`, so the action-recording branch never fires and
the list is always empty. -/
structure ClassAction where
  class_name : String
deriving Repr, DecidableEq

/-- One entry of `self.policy_maps`. -/
structure PolicyMap where
  name : String
  class_actions : List ClassAction
deriving Repr, DecidableEq

/-- One entry of `self.zone_pairs`. -/
structure ZonePair where
  name : String
  source_zone : String
  destination_zone : String
  policy_map : Option String
deriving Repr, DecidableEq

/-- One entry of `self.identities['ip']` (the constant
`friendly_name: ''` field is omitted; `members` keeps the address
strings in order). -/
structure IpIdentity where
  uid : String
  name : String
  members : List String
deriving Repr, DecidableEq

/-- One `{'start': a, 'end': b}` member of a port identity. -/
structure PortMember where
  startPort : Nat
  endPort : Nat
deriving Repr, DecidableEq

/-- One entry of `self.identities['port']`. -/
structure PortIdentity where
  uid : String
  name : String
  members : List PortMember
deriving Repr, DecidableEq

/-- One Cradlepoint filter rule.  The Python rule dicts store the
identity-reference collections either as `[]` or as an index-keyed dict
`{'0': {'identity': id}, ...}` whose iteration order is the index order;
both become a `List String` of identity ids here (`[]` models both the
empty list and an absent key).  `protocols` is likewise `[]` ("any
protocol") or the single numeric protocol id.  The constant fields
`ip_version: 'ip4'`, `app_sets: []` and `src.mac: []` are omitted. -/
structure FilterRule where
  action : String
  name : String
  priority : Nat
  protocols : List Nat
  srcIp : List String
  srcPort : List String
  dstIp : List String
  dstPort : List String
deriving Repr, DecidableEq

/-- One entry of `self.filter_policies`; `rules` keeps the rule dict's
index order. -/
structure FilterPolicy where
  uid : String
  name : String
  default_action : String
  rules : List FilterRule
deriving Repr, DecidableEq

/-- One entry of `self.zone_forwardings`. -/
structure ZoneForwarding where
  uid : String
  src_zone_id : String
  dst_zone_id : String
  enabled : Bool
  filter_policy_id : String
deriving Repr, DecidableEq

/-- The converter's mutable state (`CiscoToCradlepointConverter.self`).
Collections that Python keys by generated uuid are plain lists here (the
keys are always fresh, so insertion never overwrites); collections keyed
by user-supplied names keep dict semantics via `keyedInsert`. -/
structure ConvState where
  config_lines : List String
  zones : List Zone
  zone_forwardings : List ZoneForwarding
  filter_policies : List FilterPolicy
  acls : List Acl
  class_maps : List ClassMap
  object_groups : List ObjectGroup
  policy_maps : List PolicyMap
  zone_pairs : List ZonePair
  ipIdentities : List IpIdentity
  portIdentities : List PortIdentity
  object_group_to_identity : List (String × String)
  counter : Nat
deriving Repr, DecidableEq

/-- Fresh-identifier supply modelling `_generate_id` / `uuid.uuid4()`. -/
def generateId (n : Nat) : String := strCat "uuid-" (natToStr n)

/-- Dict assignment `d[key x] = x` on an insertion-ordered association
list: replaces an existing entry in place, else appends (exactly Python's
dict update semantics). -/
def keyedInsert (key : α → String) (x : α) : List α → List α
  | [] => [x]
  | h :: t => if key h == key x then x :: t else h :: keyedInsert key x t

/-- Dict lookup `d.get(n)` by name. -/
def keyedLookup (key : α → String) (n : String) (l : List α) : Option α :=
  l.find? (fun y => key y == n)

/-- In-place update of the entry with key `n` (models mutating a record
held in a dict through an alias). -/
def keyedUpdate (key : α → String) (n : String) (f : α → α) : List α → List α
  | [] => []
  | h :: t => if key h == n then f h :: t else h :: keyedUpdate key n f t

/-- Lookup in `object_group_to_identity` (a real string-keyed dict). -/
def mapLookup (n : String) (l : List (String × String)) : Option String :=
  (l.find? (fun p => p.fst == n)).map (·.snd)

/-- Assignment into `object_group_to_identity`. -/
def mapInsert (k v : String) : List (String × String) → List (String × String)
  | [] => [(k, v)]
  | h :: t => if h.fst == k then (k, v) :: t else h :: mapInsert k v t

/-- The `self.port_map` table of well-known service-name ports. -/
def port_map : List (String × Nat) :=
  [("http", 80), ("https", 443), ("ssh", 22), ("telnet", 23), ("smtp", 25),
   ("dns", 53), ("domain", 53), ("dhcp", 67), ("tftp", 69), ("ftp", 21),
   ("pop3", 110), ("imap", 143), ("snmp", 161), ("ldap", 389),
   ("https-alt", 8443), ("mysql", 3306), ("rdp", 3389), ("kerberos", 88),
   ("kpasswd", 464), ("ldaps", 636), ("msrpc", 135), ("netbios-ssn", 139),
   ("netbios-dgm", 138), ("netbios-ns", 137), ("smb", 445),
   ("microsoft-ds", 445), ("citrix", 1494), ("citrix-ica", 1494),
   ("citrix-xenapp", 1494), ("ntp", 123), ("time", 37), ("daytime", 13),
   ("chargen", 19), ("echo", 7), ("discard", 9), ("systat", 11),
   ("finger", 79), ("whois", 43), ("gopher", 70), ("rje", 77),
   ("hostname", 101), ("iso-tsap", 102), ("acr-nema", 104),
   ("csnet-ns", 105), ("rtelnet", 107), ("pop-2", 109), ("pop-3", 110),
   ("sunrpc", 111), ("ident", 113), ("auth", 113), ("sftp", 115),
   ("uucp-path", 117), ("nntp", 119), ("pwdgen", 129), ("loc-srv", 135),
   ("imap2", 143), ("news", 144), ("www", 80), ("ftp-data", 20),
   ("netbios-ss", 139), ("nameserver", 42), ("snmptrap", 162),
   ("lpd", 515), ("cmd", 514), ("syslog", 514), ("tacacs", 49)]

/-- `port in self.port_map` / `self.port_map[port]`. -/
def portMapLookup (n : String) : Option Nat :=
  (port_map.find? (fun p => p.fst == n)).map (·.snd)

/-! ### Section parsers

Each parser is a `foldl` of a per-line step over the (stripped) line
sequence, mirroring the single-pass loops of the source.  The `current`
component of each accumulator models the `current_*` block pointer. -/

/-- Per-line step of `parse_zones`. -/
def parseZonesStep (acc : List Zone × Nat) (line : String) : List Zone × Nat :=
  let t := pyStrip line
  if pyStartsWith t "zone security " then
    let name := (pySplitOnSub t "zone security ").getD 1 ""
    (acc.1 ++ [⟨generateId acc.2, name⟩], acc.2 + 1)
  else acc

/-- `parse_zones`: one zone (with a fresh id) per `zone security` line. -/
def parseZones (lines : List String) (c0 : Nat) : List Zone × Nat :=
  lines.foldl parseZonesStep ([], c0)

/-- The section-start test of `parse_object_groups`' block-exit branch. -/
def ogSectionStart (t : String) : Bool :=
  pyStartsWith t "!" || pyStartsWith t "interface " || pyStartsWith t "ip " ||
  pyStartsWith t "router " || pyStartsWith t "zone " || pyStartsWith t "class-map " ||
  pyStartsWith t "policy-map " || pyStartsWith t "crypto " || pyStartsWith t "line " ||
  pyStartsWith t "access-list " || pyStartsWith t "logging " || pyStartsWith t "ntp " ||
  pyStartsWith t "snmp-server " || pyStartsWith t "tacacs " || pyStartsWith t "banner " ||
  pyStartsWith t "mgcp " || pyStartsWith t "gatekeeper " || pyStartsWith t "control-plane " ||
  pyStartsWith t "scheduler " || pyStartsWith t "end"

/-- The catch-all disjunct of `parse_object_groups`' entry branch
(a non-empty line that is none of the known section starts; note the
bare `object-group` exclusion without a trailing space). -/
def ogEntryCatchAll (t : String) : Bool :=
  !(t == "") && !pyStartsWith t "!" && !pyStartsWith t "object-group" &&
  !pyStartsWith t "interface " && !pyStartsWith t "ip " && !pyStartsWith t "router " &&
  !pyStartsWith t "zone " && !pyStartsWith t "class-map " && !pyStartsWith t "policy-map " &&
  !pyStartsWith t "crypto " && !pyStartsWith t "line " && !pyStartsWith t "access-list " &&
  !pyStartsWith t "logging " && !pyStartsWith t "ntp " && !pyStartsWith t "snmp-server " &&
  !pyStartsWith t "tacacs " && !pyStartsWith t "banner " && !pyStartsWith t "mgcp " &&
  !pyStartsWith t "gatekeeper " && !pyStartsWith t "control-plane " &&
  !pyStartsWith t "scheduler " && !pyStartsWith t "end"

/-- Explicit entry markers of `parse_object_groups`' entry branch. -/
def ogEntryMarker (t : String) : Bool :=
  pyStartsWith t "host " || pyStartsWith t "network " || pyStartsWith t "range " ||
  pyStartsWith t "description " || pyStartsWith t "tcp " || pyStartsWith t "udp " ||
  pyStartsWith t "tcp-udp "

/-- Entry parsing inside a network-kind object group. -/
def parseNetworkOgEntry (t : String) : Option OgEntry :=
  if pyContains t "host " then
    some (.host (pyStrip ((pySplitOnSub t "host ").getD 1 "")))
  else if pyContains t "network " then
    let parts := pySplitWs t
    if parts.length ≥ 3 then some (.network (parts.getD 1 "") (parts.getD 2 "")) else none
  else if pyContains t "range " then
    let parts := pySplitWs t
    if parts.length ≥ 3 then some (.range (parts.getD 1 "") (parts.getD 2 "")) else none
  else if !pyStartsWith t "description " then
    let parts := pySplitWs t
    if parts.length ≥ 2 then some (.network (parts.getD 0 "") (parts.getD 1 ""))
    else if parts.length == 1 then some (.host (parts.getD 0 ""))
    else none
  else none

/-- Entry parsing inside a service-kind object group. -/
def parseServiceOgEntry (t : String) : Option OgEntry :=
  if pyStartsWith t "tcp " || pyStartsWith t "udp " || pyStartsWith t "tcp-udp " then
    let parts := pySplitWs t
    if parts.length ≥ 3 && parts.getD 1 "" == "eq" then
      let port := parts.getD 2 ""
      if pyIsDigits port then some (.portNum (digitsToNat port.data 0))
      else
        match portMapLookup port with
        | some n => some (.portNum n)
        | none =>
          match pyInt? port with
          | some n => some (.portNum n)
          | none => some (.portName port)
    else none
  else if pyContains t "range " then
    let parts := pySplitWs t
    if parts.length ≥ 4 then
      match pyInt? (parts.getD 2 ""), pyInt? (parts.getD 3 "") with
      | some a, some b => some (.portRange a b)
      | _, _ => none
    else none
  else if pyContains t "object-group " then
    some (.groupRef (pyStrip ((pySplitOnSub t "object-group ").getD 1 "")))
  else none

/-- Per-line step of `parse_object_groups`. -/
def parseObjectGroupsStep (acc : List ObjectGroup × Option String) (line : String) :
    List ObjectGroup × Option String :=
  let t := pyStrip line
  let (groups, current) := acc
  if pyStartsWith t "object-group " then
    let parts := pySplitWs t
    if parts.length ≥ 3 then
      let g : ObjectGroup := ⟨parts.getD 2 "", parts.getD 1 "", []⟩
      (keyedInsert (·.name) g groups, some g.name)
    else acc
  else if current.isSome && ogSectionStart t then
    (groups, none)
  else if current.isSome && (ogEntryMarker t || ogEntryCatchAll t) then
    match current with
    | none => acc
    | some cname =>
      let entry :=
        match keyedLookup (·.name) cname groups with
        | some g =>
          if g.type == "network" then parseNetworkOgEntry t
          else if g.type == "service" then parseServiceOgEntry t
          else none
        | none => none
      match entry with
      | some e => (keyedUpdate (·.name) cname (fun g => { g with objects := g.objects ++ [e] }) groups, current)
      | none => acc
  else if !(t == "") && !pyStartsWith t " " && !pyStartsWith t "!" && !pyStartsWith t "object-group" then
    (groups, none)
  else acc

/-- `parse_object_groups`. -/
def parseObjectGroups (lines : List String) : List ObjectGroup :=
  (lines.foldl parseObjectGroupsStep ([], none)).1

/-- The numeric protocol table of `_parse_acl_rule`
(`protocol_map.get(protocol.lower(), 6)`). -/
def aclProtocolId (p : String) : Nat :=
  if p == "tcp" then 6 else if p == "udp" then 17
  else if p == "icmp" then 1 else if p == "ip" then 0 else 6

/-- Source-endpoint parsing shared by the two-token and one-token shapes
of `_parse_acl_rule`. -/
def parseAclSideSrc (source : String) (rule : AclRule) : AclRule :=
  if source == "any" then { rule with source_ip := some "any" }
  else if pyStartsWith source "host " then
    { rule with source_ip := some ((pySplitOnSub source "host ").getD 1 "") }
  else if pyStartsWith source "object-group " then
    { rule with source_object_group := some ((pySplitOnSub source "object-group ").getD 1 "") }
  else { rule with source_object_group := some source }

/-- Destination-endpoint parsing of the two-token shape. -/
def parseAclSideDst (destination : String) (rule : AclRule) : AclRule :=
  if destination == "any" then { rule with destination_ip := some "any" }
  else if pyStartsWith destination "host " then
    { rule with destination_ip := some ((pySplitOnSub destination "host ").getD 1 "") }
  else if pyStartsWith destination "object-group " then
    { rule with destination_object_group := some ((pySplitOnSub destination "object-group ").getD 1 "") }
  else { rule with destination_object_group := some destination }

/-- The shape dispatch of `_parse_acl_rule` over the tokens remaining
after the action and optional protocol.  Every branch mirrors one
`elif`; when no shape matches, the base rule is returned unchanged
(the function still returns it — there is no fall-through to `None`). -/
def parseAclRemainder (rule : AclRule) (rp : List String) : AclRule :=
  let n := rp.length
  if n ≥ 6 && rp.getD 0 "" == "object-group" && rp.getD 2 "" == "object-group" &&
      rp.getD 4 "" == "object-group" then
    { rule with service_object_group := some (rp.getD 1 ""),
                source_object_group := some (rp.getD 3 ""),
                destination_object_group := some (rp.getD 5 "") }
  else if n ≥ 4 && rp.getD 0 "" == "object-group" && rp.getD 2 "" == "object-group" then
    let first_group := rp.getD 1 ""
    let is_service_group := pyStartsWith first_group "SVC-" || pyStartsWith first_group "SVCG-"
    if is_service_group && n ≥ 4 then
      let destination := if n > 4 then rp.getD 4 "" else "any"
      let rule := { rule with service_object_group := some (rp.getD 1 ""),
                              source_object_group := some (rp.getD 3 "") }
      if destination == "any" then { rule with destination_ip := some "any" }
      else if pyStartsWith destination "object-group " then
        let gname := (pySplitOnSub destination "object-group ").getD 1 ""
        { rule with destination_object_group := some gname }
      else { rule with destination_object_group := some destination }
    else
      let rule := { rule with source_object_group := some (rp.getD 1 ""),
                              destination_object_group := some (rp.getD 3 "") }
      if n ≥ 6 && ["eq", "range", "lt", "gt"].contains (rp.getD 4 "") then
        if rp.getD 4 "" == "eq" then { rule with destination_port := some (rp.getD 5 "") }
        else if rp.getD 4 "" == "range" && n ≥ 7 then
          let pr := strCat (strCat (rp.getD 5 "") "-") (rp.getD 6 "")
          { rule with destination_port := some pr }
        else rule
      else rule
  else if n ≥ 5 && rp.getD 0 "" == "object-group" && rp.getD 2 "" == "host" then
    let rule := { rule with source_object_group := some (rp.getD 1 ""),
                            destination_ip := some (rp.getD 3 "") }
    if n ≥ 6 && ["eq", "range", "lt", "gt"].contains (rp.getD 4 "") then
      if rp.getD 4 "" == "eq" then { rule with destination_port := some (rp.getD 5 "") }
      else if rp.getD 4 "" == "range" && n ≥ 7 then
        let pr := strCat (strCat (rp.getD 5 "") "-") (rp.getD 6 "")
        { rule with destination_port := some pr }
      else rule
    else rule
  else if n ≥ 5 && rp.getD 0 "" == "object-group" && rp.getD 2 "" == "object-group" &&
      rp.getD 4 "" == "eq" then
    -- unreachable: fully shadowed by the second branch; kept to mirror the source
    { rule with source_object_group := some (rp.getD 1 ""),
                destination_object_group := some (rp.getD 3 ""),
                destination_port := some (rp.getD 5 "") }
  else if n == 2 then
    parseAclSideDst (rp.getD 1 "") (parseAclSideSrc (rp.getD 0 "") rule)
  else if n == 1 then
    parseAclSideSrc (rp.getD 0 "") { rule with destination_ip := some "any" }
  else rule

/-- `_parse_acl_rule`. -/
def parseAclRule (line : String) : Option AclRule :=
  let original_line := pyStrip line
  if original_line == "" || pyStartsWith original_line "!" then none
  else if pyStartsWith original_line "permit " || pyStartsWith original_line "deny " then
    let parts := pySplitWs original_line
    let action := parts.getD 0 ""
    let explicitProto :=
      parts.length > 1 && ["tcp", "udp", "icmp", "ip"].contains (pyLower (parts.getD 1 ""))
    let protocol := if explicitProto then parts.getD 1 "" else "ip"
    let rp := if explicitProto then parts.drop 2 else parts.drop 1
    let rule : AclRule :=
      { action := if action == "permit" then "allow" else "deny",
        protocol := protocol,
        protocol_id := aclProtocolId (pyLower protocol) }
    some (parseAclRemainder rule rp)
  else none

/-- Per-line step of `parse_acls`. -/
def parseAclsStep (acc : List Acl × Option String) (line : String) : List Acl × Option String :=
  let t := pyStrip line
  let (acls, current) := acc
  if pyStartsWith t "ip access-list extended " then
    let name := (pySplitOnSub t "ip access-list extended ").getD 1 ""
    (keyedInsert (·.name) ⟨name, []⟩ acls, some name)
  else if current.isSome &&
      (pyStartsWith t " " || pyStartsWith t "permit " || pyStartsWith t "deny ") then
    match current, parseAclRule t with
    | some cname, some r =>
      (keyedUpdate (·.name) cname (fun a => { a with rules := a.rules ++ [r] }) acls, current)
    | _, _ => acc
  else if !(t == "") && !pyStartsWith t " " && !pyStartsWith t "!" &&
      !pyStartsWith t "ip access-list" then
    (acls, none)
  else acc

/-- `parse_acls`. -/
def parseAcls (lines : List String) : List Acl :=
  (lines.foldl parseAclsStep ([], none)).1

/-- Per-line step of `parse_class_maps`. -/
def parseClassMapsStep (acc : List ClassMap × Option String) (line : String) :
    List ClassMap × Option String :=
  let t := pyStrip line
  let (cms, current) := acc
  if pyStartsWith t "class-map type inspect match-any " then
    let name := (pySplitOnSub t "class-map type inspect match-any ").getD 1 ""
    (keyedInsert (·.name) ⟨name, [], []⟩ cms, some name)
  else if current.isSome && pyStartsWith t "match access-group name " then
    match current with
    | some cname =>
      let acl := (pySplitWs t).getD 3 ""
      (keyedUpdate (·.name) cname
        (fun c => { c with acl_references := c.acl_references ++ [acl] }) cms, current)
    | none => acc
  else if current.isSome && pyStartsWith t "match object-group " then
    match current with
    | some cname =>
      let og := (pySplitWs t).getD 2 ""
      (keyedUpdate (·.name) cname
        (fun c => { c with object_group_references := c.object_group_references ++ [og] }) cms,
       current)
    | none => acc
  else if !(t == "") && !pyStartsWith t " " && !pyStartsWith t "!" &&
      !pyStartsWith t "class-map" && !pyStartsWith t "policy-map" then
    (cms, none)
  else acc

/-- `parse_class_maps`. -/
def parseClassMaps (lines : List String) : List ClassMap :=
  (lines.foldl parseClassMapsStep ([], none)).1

/-- Per-line step of `parse_policy_maps`.  The action-recording branch
tests `line.startswith('  ')` on an already-stripped line, so it can
never fire; it is kept as a no-op to mirror the source (and explains why
class actions carry no recorded actions). -/
def parsePolicyMapsStep (acc : List PolicyMap × Option String) (line : String) :
    List PolicyMap × Option String :=
  let t := pyStrip line
  let (pms, current) := acc
  if pyStartsWith t "policy-map type inspect " then
    let name := (pySplitOnSub t "policy-map type inspect ").getD 1 ""
    (keyedInsert (·.name) ⟨name, []⟩ pms, some name)
  else if current.isSome && pyStartsWith t "class type inspect " then
    match current with
    | some cname =>
      let klass := (pySplitOnSub t "class type inspect ").getD 1 ""
      (keyedUpdate (·.name) cname
        (fun p => { p with class_actions := p.class_actions ++ [⟨klass⟩] }) pms, current)
    | none => acc
  else if current.isSome && pyStartsWith t "  " then
    acc
  else if !(t == "") && !pyStartsWith t " " && !pyStartsWith t "!" &&
      !pyStartsWith t "class-map" && !pyStartsWith t "policy-map" then
    (pms, none)
  else acc

/-- `parse_policy_maps`. -/
def parsePolicyMaps (lines : List String) : List PolicyMap :=
  (lines.foldl parsePolicyMapsStep ([], none)).1

/-- The keyword scan of `parse_zone_pairs` for `source`/`destination`
(later occurrences overwrite earlier ones, as in the source loop). -/
def scanSrcDst (parts : List String) : Option String × Option String :=
  (List.range parts.length).foldl (fun acc i =>
    let part := parts.getD i ""
    if part == "source" && i + 1 < parts.length then (some (parts.getD (i + 1) ""), acc.2)
    else if part == "destination" && i + 1 < parts.length then (acc.1, some (parts.getD (i + 1) ""))
    else acc) (none, none)

/-- Assignment of a `service-policy` directive to the final entry of the
zone-pair map (`list(self.zone_pairs.values())[-1]`). -/
def updateLastPolicy (pm : String) : List ZonePair → List ZonePair
  | [] => []
  | [p] => [{ p with policy_map := some pm }]
  | p :: q :: rest => p :: updateLastPolicy pm (q :: rest)

/-- Per-line step of `parse_zone_pairs`. -/
def parseZonePairsStep (pairs : List ZonePair) (line : String) : List ZonePair :=
  let t := pyStrip line
  if pyStartsWith t "zone-pair security " then
    let parts := pySplitWs t
    if parts.length ≥ 6 then
      let pair_name := parts.getD 2 ""
      match scanSrcDst parts with
      | (some src, some dst) => keyedInsert (·.name) ⟨pair_name, src, dst, none⟩ pairs
      | _ => pairs
    else pairs
  else if pyStartsWith t "service-policy type inspect " then
    let parts := pySplitWs t
    if parts.length ≥ 4 then
      let pm := parts.getD 3 ""
      if pairs.isEmpty then pairs else updateLastPolicy pm pairs
    else pairs
  else pairs

/-- `parse_zone_pairs`. -/
def parseZonePairs (lines : List String) : List ZonePair :=
  lines.foldl parseZonePairsStep []

/-! ### Identity builder -/

/-- Population count used by `_cidr_from_mask` (`bin(int(octet)).count('1')`),
fuelled to stay structural. -/
def popCountFuel : Nat → Nat → Nat
  | 0, _ => 0
  | f + 1, n => if n == 0 then 0 else (n % 2) + popCountFuel f (n / 2)

/-- `_cidr_from_mask`: dotted-decimal masks are summed bit-wise, `/x` is
kept, anything else is prefixed with `/`; a non-numeric octet raises in
the source and is caught, yielding `/32`. -/
def cidrFromMask (mask : String) : String :=
  if pyStartsWith mask "255." then
    let octets := pySplitOnSub mask "."
    if octets.all pyIsDigits then
      let cidr := octets.foldl (fun acc o => acc + popCountFuel 64 (digitsToNat o.data 0)) 0
      strCat "/" (natToStr cidr)
    else "/32"
  else if pyStartsWith mask "/" then mask
  else strCat "/" mask

/-- `_is_valid_ip_address` (`ipaddress.ip_address(ip)`), modelled for
IPv4 dotted-quad literals: four octets, each a decimal number up to 255
with no leading zero.  IPv6 text forms do not occur in the
configurations studied here. -/
def isValidOctet (s : String) : Bool :=
  pyIsDigits s && digitsToNat s.data 0 ≤ 255 && (s.length == 1 || !pyStartsWith s "0")

/-- IPv4 validity test, see `isValidOctet`. -/
def isValidIpAddress (ip : String) : Bool :=
  let parts := pySplitOnSub ip "."
  parts.length == 4 && parts.all isValidOctet

/-- Scan state of the raw-line re-scan for one service object-group
(`break` becomes the absorbing `done` state). -/
inductive ScanMode where
  | before
  | inside
  | done
deriving Repr, DecidableEq

/-- Port accumulation for one `tcp`/`udp`/`tcp-udp` line of the scan
(`try: int(...) except: port_map lookup`). -/
def scanPortOfParts (parts : List String) : Option Nat :=
  if parts.length ≥ 3 && parts.getD 1 "" == "eq" then
    match pyInt? (parts.getD 2 "") with
    | some p => some p
    | none => portMapLookup (parts.getD 2 "")
  else none

/-- Per-line step of the raw re-scan shared by `create_identities` and
`_get_protocol_identities_for_service_group` (the two copies in the
source are line-for-line identical). -/
def serviceGroupScanStep (g : String) (acc : (List Nat × List Nat) × ScanMode)
    (line : String) : (List Nat × List Nat) × ScanMode :=
  match acc.2 with
  | .done => acc
  | .before =>
    let t := pyStrip line
    if pyStartsWith t (strCat "object-group service " g) then (acc.1, .inside) else acc
  | .inside =>
    let t := pyStrip line
    if pyStartsWith t "!" then (acc.1, .done)
    else if pyStartsWith t "object-group " then (acc.1, .done)
    else if pyStartsWith t "class-map " || pyStartsWith t "policy-map " ||
        pyStartsWith t "zone-pair " || pyStartsWith t "ip access-list " ||
        pyStartsWith t "interface " || pyStartsWith t "router " ||
        pyStartsWith t "zone security " then (acc.1, .done)
    else if t == "" || pyStartsWith t "description " then acc
    else if pyStartsWith t "tcp " then
      match scanPortOfParts (pySplitWs t) with
      | some p => ((setInsertNat p acc.1.1, acc.1.2), .inside)
      | none => acc
    else if pyStartsWith t "udp " then
      match scanPortOfParts (pySplitWs t) with
      | some p => ((acc.1.1, setInsertNat p acc.1.2), .inside)
      | none => acc
    else if pyStartsWith t "tcp-udp " then
      match scanPortOfParts (pySplitWs t) with
      | some p => ((setInsertNat p acc.1.1, setInsertNat p acc.1.2), .inside)
      | none => acc
    else acc

/-- Raw-line scan of one service group: the accumulated
`(tcp_ports, udp_ports)` sets (first-seen order; sorted on use). -/
def serviceGroupScan (lines : List String) (g : String) : List Nat × List Nat :=
  (lines.foldl (serviceGroupScanStep g) (([], []), .before)).1

/-- `_get_protocol_identities_for_service_group`. -/
def protocolIdentitiesForServiceGroup (lines : List String) (ogs : List ObjectGroup)
    (g : String) : List Nat :=
  match keyedLookup (·.name) g ogs with
  | none => [6]
  | some grp =>
    if grp.type != "service" then [6]
    else
      let tu := serviceGroupScan lines g
      if !tu.1.isEmpty && !tu.2.isEmpty then [6, 17]
      else if !tu.1.isEmpty then [6]
      else if !tu.2.isEmpty then [17]
      else [6]

/-- Index-keyed dict insert for the `members[str(i)] = ...` pattern. -/
def natKeyInsert (k : Nat) (v : α) : List (Nat × α) → List (Nat × α)
  | [] => [(k, v)]
  | h :: t => if h.1 == k then (k, v) :: t else h :: natKeyInsert k v t

/-- Member construction for one network object group
(`create_identities`, first loop body): each object contributes a member
at its own index; a range member writes its end address at index `i+1`
only when that slot exists (so a trailing range drops its end, and the
following object overwrites the slot in place — dict semantics). -/
def ipMembersOfGroup (objects : List OgEntry) : List String :=
  let len := objects.length
  let memberDict := (List.range len).foldl (fun md i =>
    match objects.getD i (.host "") with
    | .host v => if isValidIpAddress v then natKeyInsert i v md else md
    | .network netw mask =>
      if isValidIpAddress netw then natKeyInsert i (strCat netw (cidrFromMask mask)) md else md
    | .range a b =>
      if isValidIpAddress a && isValidIpAddress b then
        (if i + 1 < len then natKeyInsert (i + 1) b (natKeyInsert i a md)
         else natKeyInsert i a md)
      else md
    | _ => md) []
  memberDict.map (·.2)

/-- Member construction for one single-protocol service group
(`create_identities`, second loop, non-mixed branch). -/
def portMembersOfGroup (objects : List OgEntry) (ogMap : List (String × String)) :
    List PortMember :=
  let memberDict := (List.range objects.length).foldl (fun md i =>
    match objects.getD i (.host "") with
    | .portNum p => natKeyInsert i (PortMember.mk p p) md
    | .portName pn =>
      (match portMapLookup pn with
       | some p => natKeyInsert i (PortMember.mk p p) md
       | none =>
         match pyInt? pn with
         | some p => natKeyInsert i (PortMember.mk p p) md
         | none => md)
    | .portRange a b => natKeyInsert i (PortMember.mk a b) md
    | .groupRef ref =>
      if (mapLookup ref ogMap).isSome then natKeyInsert i (PortMember.mk 0 0) md else md
    | _ => md) []
  memberDict.map (·.2)

/-- Boolean order on naturals for `sorted`. -/
def natLeB (a b : Nat) : Bool := Nat.ble a b

/-- Accumulator of the identity-building loops:
(ip identities, port identities, group-to-identity map, id counter). -/
structure IdentAcc where
  ipIds : List IpIdentity
  portIds : List PortIdentity
  ogMap : List (String × String)
  counter : Nat
deriving Repr, DecidableEq

/-- First loop body of `create_identities` (network groups).  The id is
generated before the member check, so the counter advances even when all
members are invalid. -/
def createIpIdentityForGroup (acc : IdentAcc) (g : ObjectGroup) : IdentAcc :=
  if g.type == "network" && !g.objects.isEmpty then
    let identity_id := generateId acc.counter
    let acc := { acc with counter := acc.counter + 1 }
    let members := ipMembersOfGroup g.objects
    if !members.isEmpty then
      { acc with ipIds := acc.ipIds ++ [⟨identity_id, g.name, members⟩],
                 ogMap := mapInsert g.name identity_id acc.ogMap }
    else acc
  else acc

/-- Second loop body of `create_identities` (service groups): the mixed
tcp/udp branch re-scans the raw lines and emits one identity per
protocol, registering `-TCP`/`-tcp`/`-UDP`/`-udp` suffixed keys plus the
unsuffixed key (TCP preferred); the single-protocol branch emits one
identity from the parsed objects. -/
def createPortIdentitiesForGroup (lines : List String) (ogs : List ObjectGroup)
    (acc : IdentAcc) (g : ObjectGroup) : IdentAcc :=
  if g.type == "service" && !g.objects.isEmpty then
    let protos := protocolIdentitiesForServiceGroup lines ogs g.name
    if protos.length > 1 then
      let tu := serviceGroupScan lines g.name
      let tcp_ports := tu.1
      let udp_ports := tu.2
      let (tcpId?, acc) :=
        if !tcp_ports.isEmpty then
          let tid := generateId acc.counter
          let mems := (sortByB natLeB tcp_ports).map (fun p => PortMember.mk p p)
          (some tid,
           { acc with counter := acc.counter + 1,
                      portIds := acc.portIds ++ [⟨tid, strCat g.name "-TCP", mems⟩],
                      ogMap := mapInsert (strCat g.name "-tcp") tid
                                 (mapInsert (strCat g.name "-TCP") tid acc.ogMap) })
        else (none, acc)
      let (udpId?, acc) :=
        if !udp_ports.isEmpty then
          let uid := generateId acc.counter
          let mems := (sortByB natLeB udp_ports).map (fun p => PortMember.mk p p)
          (some uid,
           { acc with counter := acc.counter + 1,
                      portIds := acc.portIds ++ [⟨uid, strCat g.name "-UDP", mems⟩],
                      ogMap := mapInsert (strCat g.name "-udp") uid
                                 (mapInsert (strCat g.name "-UDP") uid acc.ogMap) })
        else (none, acc)
      match tcpId?, udpId? with
      | some tid, _ => { acc with ogMap := mapInsert g.name tid acc.ogMap }
      | none, some uid => { acc with ogMap := mapInsert g.name uid acc.ogMap }
      | none, none => acc
    else
      let identity_id := generateId acc.counter
      let acc := { acc with counter := acc.counter + 1 }
      let members := portMembersOfGroup g.objects acc.ogMap
      if !members.isEmpty then
        { acc with portIds := acc.portIds ++ [⟨identity_id, g.name, members⟩],
                   ogMap := mapInsert g.name identity_id acc.ogMap }
      else acc
  else acc

/-- `create_identities`. -/
def createIdentities (s : ConvState) : ConvState :=
  let acc0 : IdentAcc := ⟨s.ipIdentities, s.portIdentities, s.object_group_to_identity, s.counter⟩
  let acc1 := s.object_groups.foldl createIpIdentityForGroup acc0
  let acc2 := s.object_groups.foldl (createPortIdentitiesForGroup s.config_lines s.object_groups) acc1
  { s with ipIdentities := acc2.ipIds, portIdentities := acc2.portIds,
           object_group_to_identity := acc2.ogMap, counter := acc2.counter }

/-- Deterministic name of a synthesized single-IP identity. -/
def ipIdentityName (ip : String) : String := strCat "IP-" (pyReplace ip "." "-")

/-- `_get_or_create_ip_identity`. -/
def getOrCreateIpIdentity (s : ConvState) (ip : String) : Option String × ConvState :=
  if !isValidIpAddress ip then (none, s)
  else
    match s.ipIdentities.find? (fun idn => idn.name == ipIdentityName ip) with
    | some idn => (some idn.uid, s)
    | none =>
      let identity_id := generateId s.counter
      (some identity_id,
       { s with ipIdentities := s.ipIdentities ++ [⟨identity_id, ipIdentityName ip, [ip]⟩],
                counter := s.counter + 1 })

/-- `_get_or_create_port_identity`. -/
def getOrCreatePortIdentity (s : ConvState) (port : String) : Option String × ConvState :=
  match s.portIdentities.find? (fun idn => idn.name == strCat "PORT-" port) with
  | some idn => (some idn.uid, s)
  | none =>
    let isSvcGroup :=
      match keyedLookup (·.name) port s.object_groups with
      | some g => g.type == "service"
      | none => false
    match (if isSvcGroup then mapLookup port s.object_group_to_identity else none) with
    | some iid => (some iid, s)
    | none =>
      match pyInt? port with
      | some pnum =>
        let identity_id := generateId s.counter
        (some identity_id,
         { s with portIdentities :=
             s.portIdentities ++ [⟨identity_id, strCat "PORT-" port, [PortMember.mk pnum pnum]⟩],
                  counter := s.counter + 1 })
      | none => (none, s)

/-! ### Rule translator -/

/-- `_get_protocol_identity`. -/
def getProtocolIdentity (protocol : String) : Nat :=
  let p := pyLower protocol
  if p == "tcp" then 6 else if p == "udp" then 17 else if p == "icmp" then 1
  else if p == "icmpv4" then 1 else if p == "icmpv6" then 58 else if p == "ip" then 0
  else if p == "ipv4" then 0 else if p == "ipv6" then 0 else if p == "gre" then 47
  else if p == "esp" then 50 else if p == "sctp" then 132 else if p == "any" then 0
  else 6

/-- The `SVC-`/`SVCG-`-named object-group probe of
`_get_protocol_identity_for_rule`.  The inner UDP scan iterates
`service_group.get('members', [])`, but parsed groups store their
entries under `objects`, so the scan finds nothing and a matching
service group always resolves to TCP (6). -/
def svcGroupProtoProbe (ogs : List ObjectGroup) (ogOpt : Option String) : Option Nat :=
  match ogOpt with
  | some g =>
    if !(g == "") && (pyStartsWith g "SVC-" || pyStartsWith g "SVCG-") then
      match keyedLookup (·.name) g ogs with
      | some grp => if grp.type == "service" then some 6 else none
      | none => none
    else none
  | none => none

/-- `_get_protocol_identity_for_rule`. -/
def getProtocolIdentityForRule (ogs : List ObjectGroup) (r : AclRule) : Nat :=
  let protocol := pyLower r.protocol
  match svcGroupProtoProbe ogs r.source_object_group with
  | some n => n
  | none =>
    match svcGroupProtoProbe ogs r.destination_object_group with
    | some n => n
    | none =>
      if ["tcp", "udp", "icmp", "icmpv4", "icmpv6", "gre", "esp", "sctp"].contains protocol then
        getProtocolIdentity protocol
      else if ["ip", "ipv4", "ipv6", "any"].contains protocol then 6
      else 6

/-- The name-cleaning helper of `_create_rule_name`'s fallback path. -/
def ruleNameNormalize (name : String) : String :=
  let name := pyReplace (pyReplace name "object-group" "") "service-group" ""
  let name := pyReplace (pyReplace (pyReplace (pyReplace name "NET-" "") "HOSTG-" "") "HOST-" "") "NETG-" ""
  let name := pyStrip name
  if name == "" then "GROUP" else pyUpper name

/-- Fallback naming of `_create_rule_name` when no ACL name is given:
destination zone plus the first of literal port, destination group,
destination host, non-ip protocol, `ANY`. -/
def ruleNameFallback (acl_rule : AclRule) (destination_zone : Option String) : String :=
  let zone_name :=
    match destination_zone with
    | some z => if z == "" then "ANY" else z
    | none => "ANY"
  let dst_service :=
    if acl_rule.destination_port.isSome && acl_rule.destination_port != some "any" then
      acl_rule.destination_port.getD ""
    else if acl_rule.destination_object_group.isSome then
      let g := acl_rule.destination_object_group.getD ""
      if g == "object-group" then "GROUP" else ruleNameNormalize g
    else if acl_rule.destination_ip.isSome && acl_rule.destination_ip != some "any" then
      ruleNameNormalize (pyReplace (acl_rule.destination_ip.getD "") "." "-")
    else if acl_rule.protocol != "ip" then pyUpper acl_rule.protocol
    else "ANY"
  strCat (strCat zone_name " ") dst_service

/-- `_create_rule_name`. -/
def createRuleName (acls : List Acl) (acl_rule : AclRule) (destination_zone : Option String)
    (acl_name : Option String) (rule_index : Int) : String :=
  match acl_name with
  | some a =>
    if a == "" then ruleNameFallback acl_rule destination_zone
    else
      let clean_acl_name := pyReplace (pyReplace (pyReplace a "ACL_" "") "ACL-" "") "_" "-"
      match keyedLookup (·.name) a acls with
      | some acl =>
        if acl.rules.length > 1 && rule_index != -1 then
          strCat (strCat clean_acl_name "-") (natToStr (rule_index + 1).toNat)
        else clean_acl_name
      | none => clean_acl_name
  | none => ruleNameFallback acl_rule destination_zone

/-- Source-address resolution of `_convert_acl_rule_to_cradlepoint`:
object-group reference via the identity map, else lazily created
identity for a literal source ip. -/
def resolveSrcIdentities (s : ConvState) (acl_rule : AclRule) : List String × ConvState :=
  match acl_rule.source_object_group with
  | some og =>
    ((match mapLookup og s.object_group_to_identity with
      | some iid => [iid]
      | none => []), s)
  | none =>
    match acl_rule.source_ip with
    | some ip =>
      if ip != "any" then
        match getOrCreateIpIdentity s ip with
        | (some iid, s2) => ([iid], s2)
        | (none, s2) => ([], s2)
      else ([], s)
    | none => ([], s)

/-- Destination-address resolution of `_convert_acl_rule_to_cradlepoint`
(service-named groups are excluded from the address side). -/
def resolveDstIdentities (s : ConvState) (acl_rule : AclRule) : List String × ConvState :=
  match acl_rule.destination_object_group with
  | some og =>
    ((match mapLookup og s.object_group_to_identity with
      | some iid =>
        if !(pyStartsWith og "SVC-" || pyStartsWith og "SVCG-") then [iid] else []
      | none => []), s)
  | none =>
    match acl_rule.destination_ip with
    | some ip =>
      if ip != "any" then
        match getOrCreateIpIdentity s ip with
        | (some iid, s2) => ([iid], s2)
        | (none, s2) => ([], s2)
      else ([], s)
    | none => ([], s)

/-- Source-port resolution of `_convert_acl_rule_to_cradlepoint`. -/
def resolveSrcPortIdentities (s : ConvState) (acl_rule : AclRule) : List String × ConvState :=
  match acl_rule.source_port with
  | some p =>
    (match getOrCreatePortIdentity s p with
     | (some iid, s2) => ([iid], s2)
     | (none, s2) => ([], s2))
  | none => ([], s)

/-- Literal destination-port resolution of
`_convert_acl_rule_to_cradlepoint` (only without a service group). -/
def resolveNonServiceDstPorts (s : ConvState) (acl_rule : AclRule) : List String × ConvState :=
  if acl_rule.destination_port.isSome && acl_rule.service_object_group.isNone then
    match getOrCreatePortIdentity s (acl_rule.destination_port.getD "") with
    | (some iid, s2) => ([iid], s2)
    | (none, s2) => ([], s2)
  else ([], s)

/-- `_convert_acl_rule_to_cradlepoint`: translate one parsed ACL rule to
one Cradlepoint rule per resolved protocol, threading identity creation
through the state. -/
def convertAclRule (s : ConvState) (acl_rule : AclRule) (rule_index : Nat)
    (destination_zone : Option String) (acl_name : Option String) :
    List FilterRule × ConvState :=
  let sp := resolveSrcIdentities s acl_rule
  let dp := resolveDstIdentities sp.2 acl_rule
  let pp := resolveSrcPortIdentities dp.2 acl_rule
  let np := resolveNonServiceDstPorts pp.2 acl_rule
  let src_identities := sp.1
  let dst_identities := dp.1
  let src_port_identities := pp.1
  let non_service_dst_port_identities := np.1
  let s := np.2
  let base_rule_name := createRuleName s.acls acl_rule destination_zone acl_name (-1)
  match acl_rule.service_object_group with
  | some service_group =>
    let protocol_identities :=
      protocolIdentitiesForServiceGroup s.config_lines s.object_groups service_group
    if protocol_identities.length > 1 then
      let rules : List FilterRule := (List.range protocol_identities.length).map (fun i =>
        let protocol_id := protocol_identities.getD i 6
        let protocol_name :=
          if protocol_id == 6 then "TCP" else if protocol_id == 17 then "UDP"
          else if protocol_id == 1 then "ICMP" else strCat "PROTO-" (natToStr protocol_id)
        let rule_name := strCat (strCat base_rule_name "-") protocol_name
        let dst_port_identities :=
          if protocol_id == 6 || protocol_id == 17 then
            let suffix := if protocol_id == 6 then "-TCP" else "-UDP"
            match mapLookup (strCat service_group suffix) s.object_group_to_identity with
            | some iid => [iid]
            | none => []
          else []
        { action := acl_rule.action, name := rule_name, priority := (rule_index + i) * 10,
          protocols := [protocol_id], srcIp := src_identities,
          srcPort := src_port_identities, dstIp := dst_identities,
          dstPort := dst_port_identities ++ non_service_dst_port_identities })
      (rules, s)
    else
      let protocol_id := protocol_identities.getD 0 6
      let dst_port_identities :=
        match mapLookup service_group s.object_group_to_identity with
        | some iid => [iid]
        | none => []
      ([{ action := acl_rule.action, name := base_rule_name, priority := rule_index * 10,
          protocols := [protocol_id], srcIp := src_identities,
          srcPort := src_port_identities, dstIp := dst_identities,
          dstPort := dst_port_identities ++ non_service_dst_port_identities }], s)
  | none =>
    let protocol := pyLower acl_rule.protocol
    let protocol_id := getProtocolIdentityForRule s.object_groups acl_rule
    let protocols : List Nat :=
      if ["ip", "ipv4", "ipv6", "any"].contains protocol then [] else [protocol_id]
    ([{ action := acl_rule.action, name := base_rule_name, priority := rule_index * 10,
        protocols := protocols, srcIp := src_identities, srcPort := src_port_identities,
        dstIp := dst_identities, dstPort := non_service_dst_port_identities }], s)

/-! ### Rule consolidator -/

/-- Placeholder rule for positional access (never observed: indices are
always in range). -/
def dummyFilterRule : FilterRule :=
  { action := "", name := "", priority := 0, protocols := [],
    srcIp := [], srcPort := [], dstIp := [], dstPort := [] }

/-- `_get_rule_protocol_key`: `"any"` for the list form (empty = any
protocol), else the sorted joined ids. -/
def ruleProtocolKey (rule : FilterRule) : String :=
  if rule.protocols.isEmpty then "any"
  else joinWith "_" (sortByB strLeB (rule.protocols.map natToStr))

/-- `_get_rule_port_key`. -/
def rulePortKey (rule : FilterRule) : String :=
  strCat (strCat (strCat "dst_" (joinWith "_" (sortByB strLeB rule.dstPort))) "_src_")
    (joinWith "_" (sortByB strLeB rule.srcPort))

/-- `_get_rule_ip_key` for one direction's ip identity list. -/
def ruleIpKey (ids : List String) : String :=
  if ids.isEmpty then "any" else joinWith "_" (sortByB strLeB ids)

/-- The composite grouping key of `_consolidate_rules`:
`action_protocol_port_srcIps_dstIps`. -/
def ruleGroupKey (rule : FilterRule) : String :=
  joinWith "_" [rule.action, ruleProtocolKey rule, rulePortKey rule,
                ruleIpKey rule.srcIp, ruleIpKey rule.dstIp]

/-- Grouping insert: append the rule to its key's bucket, keeping
first-key insertion order (dict-of-lists semantics). -/
def groupInsert (k : String) (r : FilterRule) :
    List (String × List FilterRule) → List (String × List FilterRule)
  | [] => [(k, [r])]
  | (k2, rs) :: rest =>
    if k2 == k then (k2, rs ++ [r]) :: rest else (k2, rs) :: groupInsert k r rest

/-- `_merge_rules`: copy the first rule, then union all four identity
lists over the group, deduplicated by identity id with first-seen order. -/
def mergeRules : List FilterRule → Option FilterRule
  | [] => none
  | base :: rest =>
    let rules := base :: rest
    let all_src_ips := rules.foldl (fun acc r => acc ++ r.srcIp) ([] : List String)
    let all_dst_ips := rules.foldl (fun acc r => acc ++ r.dstIp) ([] : List String)
    let all_src_ports := rules.foldl (fun acc r => acc ++ r.srcPort) ([] : List String)
    let all_dst_ports := rules.foldl (fun acc r => acc ++ r.dstPort) ([] : List String)
    some { base with srcIp := dedupKeepFirst all_src_ips,
                     dstIp := dedupKeepFirst all_dst_ips,
                     srcPort := dedupKeepFirst all_src_ports,
                     dstPort := dedupKeepFirst all_dst_ports }

/-- `_handle_duplicate_rule_names`: append `-<position>` only to names
occurring more than once, `position` counting occurrences up to and
including the current index. -/
def handleDuplicateRuleNames (rules : List FilterRule) : List FilterRule :=
  (List.range rules.length).map (fun i =>
    let rule := rules.getD i dummyFilterRule
    let total := (rules.filter (fun r2 => r2.name == rule.name)).length
    if total > 1 then
      let position :=
        ((List.range (i + 1)).filter (fun j => (rules.getD j dummyFilterRule).name == rule.name)).length
      { rule with name := strCat (strCat rule.name "-") (natToStr position) }
    else rule)

/-- `_consolidate_rules`: group by the composite key, keep singleton
groups unchanged, merge larger groups, then disambiguate names. -/
def consolidateRules (rules : List FilterRule) : List FilterRule :=
  let rule_groups := rules.foldl (fun g r => groupInsert (ruleGroupKey r) r g) []
  let consolidated := rule_groups.foldl (fun acc kv =>
    match kv.2 with
    | [r] => acc ++ [r]
    | rs =>
      match mergeRules rs with
      | some m => acc ++ [m]
      | none => acc) []
  handleDuplicateRuleNames consolidated

/-! ### Policy and forwarding assembler -/

/-- `_is_acl_applied_somewhere`: applied to an interface
(`ip access-group` / `access-group` substring) or mentioned together
with `service-policy` / `zone-pair`. -/
def isAclAppliedSomewhere (lines : List String) (acl_name : String) : Bool :=
  lines.any (fun line =>
    let t := pyStrip line
    pyContains t (strCat "ip access-group " acl_name) ||
    pyContains t (strCat "access-group " acl_name)) ||
  lines.any (fun line =>
    let t := pyStrip line
    pyContains t acl_name && (pyContains t "service-policy" || pyContains t "zone-pair"))

/-- The single rule of the synthesized `Default Allow All` policy. -/
def defaultAllowRule : FilterRule :=
  { action := "allow", name := "Allow All", priority := 10, protocols := [6],
    srcIp := [], srcPort := [], dstIp := [], dstPort := [] }

/-- The single rule of the synthesized `Default Deny All` policy. -/
def defaultDenyRule : FilterRule :=
  { action := "deny", name := "Deny All", priority := 20, protocols := [6],
    srcIp := [], srcPort := [], dstIp := [], dstPort := [] }

/-- The policy-map destination-zone fallback: every branch of the
name-sniffing chain yields `WAN`. -/
def policyMapFallbackZone (policy_name : String) : String :=
  if pyContains policy_name "WAN" then "WAN"
  else if pyContains policy_name "POS" then "WAN"
  else "WAN"

/-- Orphan-ACL pass of `create_filter_policies` for one ACL.  The policy
id is generated before the rules are built, so the counter advances even
when no policy is appended. -/
def orphanAclPolicyStep (acls_used_in_class_maps : List String) (st : ConvState)
    (acl : Acl) : ConvState :=
  if !acls_used_in_class_maps.contains acl.name &&
      isAclAppliedSomewhere st.config_lines acl.name then
    let policy_id := generateId st.counter
    let st := { st with counter := st.counter + 1 }
    let rs := acl.rules.foldl (fun (racc : List FilterRule × ConvState) acl_rule =>
      let (rules, st2) := racc
      let (crules, st3) := convertAclRule st2 acl_rule rules.length none (some acl.name)
      (rules ++ crules, st3)) ([], st)
    let (rules, st) := rs
    if rules.isEmpty then st
    else
      { st with filter_policies :=
          st.filter_policies ++ [⟨policy_id, acl.name, "deny", consolidateRules rules⟩] }
  else st

/-- Policy-map pass of `create_filter_policies` for one policy map:
rules from every ACL of every referenced class map, plus one synthetic
`OBJ-` rule per object-group reference.  The recorded action lists are
always empty (see `parsePolicyMapsStep`), so the drop/inspect/pass
branch contributes nothing.  A policy is appended even when its rule set
is empty. -/
def policyMapPolicyStep (st : ConvState) (pm : PolicyMap) : ConvState :=
  let policy_id := generateId st.counter
  let st := { st with counter := st.counter + 1 }
  let destination_zone :=
    match st.zone_pairs.find? (fun pair => pair.policy_map == some pm.name) with
    | some pair =>
      if pair.destination_zone == "" then policyMapFallbackZone pm.name
      else pair.destination_zone
    | none => policyMapFallbackZone pm.name
  let rs := pm.class_actions.foldl (fun (racc : List FilterRule × ConvState) ca =>
    match keyedLookup (·.name) ca.class_name racc.2.class_maps with
    | none => racc
    | some cm =>
      let racc := cm.acl_references.foldl (fun (racc2 : List FilterRule × ConvState) acl_ref =>
        match keyedLookup (·.name) acl_ref racc2.2.acls with
        | none => racc2
        | some acl =>
          acl.rules.foldl (fun (racc3 : List FilterRule × ConvState) acl_rule =>
            let (rules, st4) := racc3
            let (crules, st5) :=
              convertAclRule st4 acl_rule rules.length (some destination_zone) (some acl_ref)
            (rules ++ crules, st5)) racc2) racc
      cm.object_group_references.foldl (fun (racc2 : List FilterRule × ConvState) og_ref =>
        match mapLookup og_ref racc2.2.object_group_to_identity with
        | some iid =>
          (racc2.1 ++ [{ action := "allow", name := strCat "OBJ-" og_ref,
                         priority := racc2.1.length * 10, protocols := [6],
                         srcIp := [], srcPort := [], dstIp := [iid], dstPort := [] }],
           racc2.2)
        | none => racc2) racc) ([], st)
  let (rules, st) := rs
  { st with filter_policies :=
      st.filter_policies ++ [⟨policy_id, pm.name, "deny", consolidateRules rules⟩] }

/-- `create_filter_policies`: orphan-ACL pass, policy-map pass, then the
two synthesized default policies when nothing was produced. -/
def createFilterPolicies (s : ConvState) : ConvState :=
  let acls_used_in_class_maps :=
    s.class_maps.foldl (fun acc cm => acc ++ cm.acl_references) ([] : List String)
  let s1 := s.acls.foldl (orphanAclPolicyStep acls_used_in_class_maps) s
  let s2 := s1.policy_maps.foldl policyMapPolicyStep s1
  if s2.filter_policies.isEmpty then
    let allow_policy_id := generateId s2.counter
    let deny_policy_id := generateId (s2.counter + 1)
    { s2 with counter := s2.counter + 2,
              filter_policies :=
                [⟨allow_policy_id, "Default Allow All", "deny", [defaultAllowRule]⟩,
                 ⟨deny_policy_id, "Default Deny All", "deny", [defaultDenyRule]⟩] }
  else s2

/-- Per-zone step of the zone-id resolution in
`create_zone_forwardings`: `if name == source ... elif name ==
destination ...`, later matches overwriting earlier ones. -/
def pairZoneStep (pair : ZonePair) (acc : Option String × Option String) (z : Zone) :
    Option String × Option String :=
  if z.name == pair.source_zone then (some z.uid, acc.2)
  else if z.name == pair.destination_zone then (acc.1, some z.uid)
  else acc

/-- Zone-id resolution of `create_zone_forwardings` (one pass over the
zones). -/
def resolvePairZones (zones : List Zone) (pair : ZonePair) : Option String × Option String :=
  zones.foldl (pairZoneStep pair) (none, none)

/-- Policy resolution of `create_zone_forwardings`: the bound policy map
name when truthy, else the first policy named `Default Deny All`. -/
def resolvePairPolicy (policies : List FilterPolicy) (pair : ZonePair) : Option String :=
  let viaMap : Option String :=
    match pair.policy_map with
    | some pm =>
      if pm == "" then none
      else (policies.find? (fun p : FilterPolicy => p.name == pm)).map (·.uid)
    | none => none
  match viaMap with
  | some pid => some pid
  | none => (policies.find? (fun p : FilterPolicy => p.name == "Default Deny All")).map (·.uid)

/-- The forwarding record built for one zone pair: unresolved references
become the empty string, `enabled` is always true. -/
def mkForwardingForPair (zones : List Zone) (policies : List FilterPolicy)
    (fid : String) (pair : ZonePair) : ZoneForwarding :=
  let sd := resolvePairZones zones pair
  { uid := fid, src_zone_id := sd.1.getD "", dst_zone_id := sd.2.getD "",
    enabled := true, filter_policy_id := (resolvePairPolicy policies pair).getD "" }

/-- Loop body of `create_zone_forwardings` for one zone pair. -/
def forwardingStep (st : ConvState) (pair : ZonePair) : ConvState :=
  let fid := generateId st.counter
  { st with counter := st.counter + 1,
            zone_forwardings :=
              st.zone_forwardings ++
                [mkForwardingForPair st.zones st.filter_policies fid pair] }

/-- `create_zone_forwardings`. -/
def createZoneForwardings (s : ConvState) : ConvState :=
  s.zone_pairs.foldl forwardingStep s

/-- Loop body of `create_internet_zone`'s forwarding pass: every zone
other than the new internet zone gets one enabled forwarding to it,
bound to the chosen allow-all policy. -/
def internetForwardStep (internet_zone_id default_allow_policy_id : String)
    (st : ConvState) (z : Zone) : ConvState :=
  if z.uid != internet_zone_id then
    let fid := generateId st.counter
    let fwd : ZoneForwarding := ⟨fid, z.uid, internet_zone_id, true, default_allow_policy_id⟩
    { st with counter := st.counter + 1,
              zone_forwardings := st.zone_forwardings ++ [fwd] }
  else st

/-- Allow-all policy lookup of `create_internet_zone`: the id of the
first policy named `Default Allow All`, or a freshly created `ALLOW ALL`
policy with empty rules and default action `allow`. -/
def ensureAllowPolicy (s : ConvState) : String × ConvState :=
  match s.filter_policies.find? (fun p : FilterPolicy => p.name == "Default Allow All") with
  | some p => (p.uid, s)
  | none =>
    let pid := generateId s.counter
    let allowPolicy : FilterPolicy := ⟨pid, "ALLOW ALL", "allow", []⟩
    (pid, { s with counter := s.counter + 1,
                   filter_policies := s.filter_policies ++ [allowPolicy] })

/-- Zone-allocation step of `create_internet_zone`: append the new
internet zone under a fresh id (its WAN device trigger record is not
modelled — no studied property reads it). -/
def addInternetZone (s : ConvState) (internet_zone_name : String) : ConvState :=
  { s with counter := s.counter + 1,
           zones := s.zones ++ [⟨generateId s.counter, internet_zone_name⟩] }

/-- `create_internet_zone`: add the internet zone, ensure an allow-all
policy via `ensureAllowPolicy`, then one enabled forwarding from every
other zone to the new zone. -/
def createInternetZone (s0 : ConvState) (internet_zone_name : String) : ConvState :=
  let internet_zone_id := generateId s0.counter
  let pidAndS := ensureAllowPolicy (addInternetZone s0 internet_zone_name)
  pidAndS.2.zones.foldl (internetForwardStep internet_zone_id pidAndS.1) pidAndS.2

/-! ### Emitter, validator, pipeline -/

/-- The emitted `security.zfw` document body plus the identities block
(the constant firmware metadata and the fixed path-ordering array are
literals in the source and carry no information about the input). -/
structure ZfwConfig where
  zones : List Zone
  filter_policies : List FilterPolicy
  forwardings : List ZoneForwarding
  ipIdentities : List IpIdentity
  portIdentities : List PortIdentity
deriving Repr, DecidableEq

/-- The allow-all naming test of the emitter's reordering. -/
def allowNamedB (p : FilterPolicy) : Bool :=
  p.name == "ALLOW ALL" || p.name == "Default Allow All"

/-- The emitter's policy reordering: the first allow-all-named policy
(if any), then every policy named neither `ALLOW ALL` nor
`Default Allow All` in insertion order.  Further allow-all-named
policies are dropped by construction. -/
def sortedFilterPolicies (ps : List FilterPolicy) : List FilterPolicy :=
  (match ps.find? allowNamedB with
   | some p => [p]
   | none => []) ++ ps.filter (fun p => !allowNamedB p)

/-- `generate_cradlepoint_config` (the document body). -/
def generateCradlepointConfig (s : ConvState) : ZfwConfig :=
  { zones := s.zones, filter_policies := sortedFilterPolicies s.filter_policies,
    forwardings := s.zone_forwardings,
    ipIdentities := s.ipIdentities, portIdentities := s.portIdentities }

/-- `validate_against_dtd`: non-emptiness of zones, filter policies and
forwardings, plus resolution of every non-empty `filter_policy_id`. -/
def validateAgainstDtd (config : ZfwConfig) : List String :=
  ((if config.zones.isEmpty then ["No zones found"] else []) ++
   (if config.filter_policies.isEmpty then ["No filter policies found"] else []) ++
   (if config.forwardings.isEmpty then ["No zone forwardings found"] else [])) ++
  config.forwardings.foldl (fun acc f =>
    if f.filter_policy_id != "" &&
        !(config.filter_policies.any (fun p => p.uid == f.filter_policy_id)) then
      acc ++ [strCat (strCat (strCat "Forwarding " f.uid)
                " references invalid filter_policy_id: ") f.filter_policy_id]
    else acc) []

/-- `parse_config`: the parsing passes followed by the build passes.
`parse_interfaces` is omitted: it only attaches device records to zones
and records interface metadata, which no studied property observes (it
never adds or removes zones, policies, identities or forwardings). -/
def parseConfig (lines : List String) (add_internet_zone : Bool)
    (internet_zone_name : String) : ConvState :=
  let zc := parseZones lines 0
  let s : ConvState :=
    { config_lines := lines, zones := zc.1, zone_forwardings := [], filter_policies := [],
      acls := parseAcls lines, class_maps := parseClassMaps lines,
      object_groups := parseObjectGroups lines, policy_maps := parsePolicyMaps lines,
      zone_pairs := parseZonePairs lines, ipIdentities := [], portIdentities := [],
      object_group_to_identity := [], counter := zc.2 }
  let s := createIdentities s
  let s := createFilterPolicies s
  let s := createZoneForwardings s
  if add_internet_zone then createInternetZone s internet_zone_name else s

/-- `convert`: parse then emit (validation is advisory and separate). -/
def convertConfig (lines : List String) (add_internet_zone : Bool)
    (internet_zone_name : String) : ZfwConfig :=
  generateCradlepointConfig (parseConfig lines add_internet_zone internet_zone_name)

lemma mapLookup_insert_self (k v : String) (m : List (String × String)) :
    mapLookup k (mapInsert k v m) = some v := by
  induction m with
  | nil => simp [mapInsert, mapLookup]
  | cons h t ih =>
    unfold mapInsert
    by_cases hk : (h.1 == k) = true
    · simp [mapLookup, hk]
    · simp only [hk, Bool.false_eq_true, if_false]
      unfold mapLookup at ih ⊢
      simp only [List.find?_cons, hk]
      exact ih

lemma mapLookup_insert_ne (k k2 v : String) (m : List (String × String)) (hne : k ≠ k2) :
    mapLookup k (mapInsert k2 v m) = mapLookup k m := by
  have hk2k : (k2 == k) = false := beq_eq_false_iff_ne.mpr (fun he => hne he.symm)
  induction m with
  | nil => simp [mapInsert, mapLookup, hk2k]
  | cons h t ih =>
    unfold mapInsert
    by_cases hk : (h.1 == k2) = true
    · rw [if_pos hk]
      have h1 : h.1 = k2 := by simpa using hk
      unfold mapLookup
      simp only [List.find?_cons, hk2k, h1]
    · rw [if_neg hk]
      unfold mapLookup at ih ⊢
      by_cases hhk : (h.1 == k) = true
      · simp [List.find?_cons, hhk]
      · simp only [List.find?_cons, hhk, Bool.false_eq_true]
        exact ih

lemma strCat_data (a b : String) : (strCat a b).data = a.data ++ b.data := rfl

lemma strCat_ne_left (a b : String) (hb : b.data ≠ []) : strCat a b ≠ a := by
  intro h
  have hd := congrArg String.data h
  rw [strCat_data] at hd
  exact hb (by simpa using hd)

lemma strCat_right_ne (a b c : String) (hbc : b ≠ c) : strCat a b ≠ strCat a c := by
  intro h
  have hd := congrArg String.data h
  rw [strCat_data, strCat_data] at hd
  exact hbc (congrArg String.mk (List.append_cancel_left hd))

lemma getOrCreateIpIdentity_fields (s : ConvState) (ip : String) :
    (getOrCreateIpIdentity s ip).2.config_lines = s.config_lines ∧
    (getOrCreateIpIdentity s ip).2.object_groups = s.object_groups ∧
    (getOrCreateIpIdentity s ip).2.object_group_to_identity = s.object_group_to_identity := by
  unfold getOrCreateIpIdentity
  split
  · exact ⟨rfl, rfl, rfl⟩
  · split <;> exact ⟨rfl, rfl, rfl⟩

lemma getOrCreatePortIdentity_fields (s : ConvState) (p : String) :
    (getOrCreatePortIdentity s p).2.config_lines = s.config_lines ∧
    (getOrCreatePortIdentity s p).2.object_groups = s.object_groups ∧
    (getOrCreatePortIdentity s p).2.object_group_to_identity = s.object_group_to_identity := by
  unfold getOrCreatePortIdentity
  split
  · exact ⟨rfl, rfl, rfl⟩
  · dsimp only
    split
    · exact ⟨rfl, rfl, rfl⟩
    · split <;> exact ⟨rfl, rfl, rfl⟩

lemma resolveSrcIdentities_fields (s : ConvState) (r : AclRule) :
    (resolveSrcIdentities s r).2.config_lines = s.config_lines ∧
    (resolveSrcIdentities s r).2.object_groups = s.object_groups ∧
    (resolveSrcIdentities s r).2.object_group_to_identity = s.object_group_to_identity := by
  unfold resolveSrcIdentities
  cases r.source_object_group with
  | some og => exact ⟨rfl, rfl, rfl⟩
  | none =>
    cases r.source_ip with
    | none => exact ⟨rfl, rfl, rfl⟩
    | some ip =>
      dsimp only
      split
      · rcases hg : getOrCreateIpIdentity s ip with ⟨o, s2⟩
        have ha := getOrCreateIpIdentity_fields s ip
        rw [hg] at ha
        cases o <;> simpa using ha
      · exact ⟨rfl, rfl, rfl⟩

lemma resolveDstIdentities_fields (s : ConvState) (r : AclRule) :
    (resolveDstIdentities s r).2.config_lines = s.config_lines ∧
    (resolveDstIdentities s r).2.object_groups = s.object_groups ∧
    (resolveDstIdentities s r).2.object_group_to_identity = s.object_group_to_identity := by
  unfold resolveDstIdentities
  cases r.destination_object_group with
  | some og => exact ⟨rfl, rfl, rfl⟩
  | none =>
    cases r.destination_ip with
    | none => exact ⟨rfl, rfl, rfl⟩
    | some ip =>
      dsimp only
      split
      · rcases hg : getOrCreateIpIdentity s ip with ⟨o, s2⟩
        have ha := getOrCreateIpIdentity_fields s ip
        rw [hg] at ha
        cases o <;> simpa using ha
      · exact ⟨rfl, rfl, rfl⟩

lemma resolveSrcPortIdentities_fields (s : ConvState) (r : AclRule) :
    (resolveSrcPortIdentities s r).2.config_lines = s.config_lines ∧
    (resolveSrcPortIdentities s r).2.object_groups = s.object_groups ∧
    (resolveSrcPortIdentities s r).2.object_group_to_identity = s.object_group_to_identity := by
  unfold resolveSrcPortIdentities
  cases r.source_port with
  | none => exact ⟨rfl, rfl, rfl⟩
  | some p =>
    dsimp only
    rcases hg : getOrCreatePortIdentity s p with ⟨o, s2⟩
    have ha := getOrCreatePortIdentity_fields s p
    rw [hg] at ha
    cases o <;> simpa using ha

lemma resolveNonServiceDstPorts_fields (s : ConvState) (r : AclRule) :
    (resolveNonServiceDstPorts s r).2.config_lines = s.config_lines ∧
    (resolveNonServiceDstPorts s r).2.object_groups = s.object_groups ∧
    (resolveNonServiceDstPorts s r).2.object_group_to_identity = s.object_group_to_identity := by
  unfold resolveNonServiceDstPorts
  split
  · rcases hg : getOrCreatePortIdentity s (r.destination_port.getD "") with ⟨o, s2⟩
    have ha := getOrCreatePortIdentity_fields s (r.destination_port.getD "")
    rw [hg] at ha
    cases o <;> simpa using ha
  · exact ⟨rfl, rfl, rfl⟩

lemma resolveNonServiceDstPorts_of_service (s : ConvState) (r : AclRule) (g : String)
    (h : r.service_object_group = some g) :
    resolveNonServiceDstPorts s r = ([], s) := by
  unfold resolveNonServiceDstPorts
  rw [h]
  simp

/-- Claim C3: a service object-group whose scan yields TCP port 80 and UDP
port 53 produces exactly two port identities `<group>-TCP` (member
80..80) and `<group>-UDP` (member 53..53), and every ACL rule whose
service reference is that group converts to exactly two filter rules:
protocol 6 carrying only the TCP identity and protocol 17 carrying only
the UDP identity. -/
theorem C3_confirmed (lines : List String) (ogs : List ObjectGroup) (acc : IdentAcc)
    (grp : ObjectGroup)
    (hlook : keyedLookup (·.name) grp.name ogs = some grp)
    (htype : grp.type = "service")
    (hobj : grp.objects.isEmpty = false)
    (hscan : serviceGroupScan lines grp.name = ([80], [53])) :
    (createPortIdentitiesForGroup lines ogs acc grp).portIds =
      acc.portIds ++
        [⟨generateId acc.counter, strCat grp.name "-TCP", [⟨80, 80⟩]⟩,
         ⟨generateId (acc.counter + 1), strCat grp.name "-UDP", [⟨53, 53⟩]⟩] ∧
    (∀ (s : ConvState) (r : AclRule) (idx : Nat) (dz an : Option String),
      s.config_lines = lines → s.object_groups = ogs →
      s.object_group_to_identity = (createPortIdentitiesForGroup lines ogs acc grp).ogMap →
      r.service_object_group = some grp.name →
      ((convertAclRule s r idx dz an).1).map (fun fr => (fr.protocols, fr.dstPort)) =
        [([6], [generateId acc.counter]), ([17], [generateId (acc.counter + 1)])]) := by
  have hprotos : protocolIdentitiesForServiceGroup lines ogs grp.name = [6, 17] := by
    unfold protocolIdentitiesForServiceGroup
    rw [hlook]
    simp [htype, hscan]
  have hbuild : createPortIdentitiesForGroup lines ogs acc grp =
      { acc with
          counter := acc.counter + 1 + 1,
          portIds := acc.portIds ++
            [⟨generateId acc.counter, strCat grp.name "-TCP", [⟨80, 80⟩]⟩,
             ⟨generateId (acc.counter + 1), strCat grp.name "-UDP", [⟨53, 53⟩]⟩],
          ogMap := mapInsert grp.name (generateId acc.counter)
            (mapInsert (strCat grp.name "-udp") (generateId (acc.counter + 1))
              (mapInsert (strCat grp.name "-UDP") (generateId (acc.counter + 1))
                (mapInsert (strCat grp.name "-tcp") (generateId acc.counter)
                  (mapInsert (strCat grp.name "-TCP") (generateId acc.counter) acc.ogMap)))) } := by
    unfold createPortIdentitiesForGroup
    rw [htype, hobj, hprotos, hscan]
    simp [sortByB, insertSortedBy]
  have hT : mapLookup (strCat grp.name "-TCP")
      (createPortIdentitiesForGroup lines ogs acc grp).ogMap = some (generateId acc.counter) := by
    rw [hbuild]
    dsimp only
    rw [mapLookup_insert_ne _ _ _ _ (strCat_ne_left grp.name "-TCP" (by decide))]
    rw [mapLookup_insert_ne _ _ _ _ (strCat_right_ne grp.name "-TCP" "-udp" (by decide))]
    rw [mapLookup_insert_ne _ _ _ _ (strCat_right_ne grp.name "-TCP" "-UDP" (by decide))]
    rw [mapLookup_insert_ne _ _ _ _ (strCat_right_ne grp.name "-TCP" "-tcp" (by decide))]
    rw [mapLookup_insert_self]
  have hU : mapLookup (strCat grp.name "-UDP")
      (createPortIdentitiesForGroup lines ogs acc grp).ogMap =
      some (generateId (acc.counter + 1)) := by
    rw [hbuild]
    dsimp only
    rw [mapLookup_insert_ne _ _ _ _ (strCat_ne_left grp.name "-UDP" (by decide))]
    rw [mapLookup_insert_ne _ _ _ _ (strCat_right_ne grp.name "-UDP" "-udp" (by decide))]
    rw [mapLookup_insert_self]
  refine ⟨by rw [hbuild], ?_⟩
  intro s r idx dz an hcl hog hmap hsvc
  unfold convertAclRule
  dsimp only
  rw [resolveNonServiceDstPorts_of_service _ r grp.name hsvc]
  dsimp only
  obtain ⟨ha1, ha2, ha3⟩ := resolveSrcIdentities_fields s r
  obtain ⟨hb1, hb2, hb3⟩ := resolveDstIdentities_fields (resolveSrcIdentities s r).2 r
  obtain ⟨hc1, hc2, hc3⟩ :=
    resolveSrcPortIdentities_fields (resolveDstIdentities (resolveSrcIdentities s r).2 r).2 r
  rw [hsvc]
  dsimp only
  rw [hc1, hb1, ha1, hcl, hc2, hb2, ha2, hog, hprotos, hc3, hb3, ha3, hmap]
  have hr : List.range ([6, 17] : List Nat).length = [0, 1] := rfl
  rw [hr]
  simp [hT, hU]

def c3Lines : List String := ["object-group service SVC-MIX", " tcp eq 80", " udp eq 53"]

def c3Ogs : List ObjectGroup := parseObjectGroups c3Lines

def c3Grp : ObjectGroup :=
  (keyedLookup (fun g : ObjectGroup => g.name) "SVC-MIX" c3Ogs).getD ⟨"", "", []⟩

def c3Acc : IdentAcc := ⟨[], [], [], 1⟩

def c3Rule : AclRule :=
  { action := "allow", protocol := "object-group", protocol_id := 6,
    service_object_group := some "SVC-MIX" }

def c3State : ConvState :=
  ⟨c3Lines, [], [], [], [], [], c3Ogs, [], [], [], [],
    (createPortIdentitiesForGroup c3Lines c3Ogs c3Acc c3Grp).ogMap, 5⟩

/-- Claim C3, concrete witness: the group `SVC-MIX` with entries
`tcp eq 80` and `udp eq 53`. -/
theorem C3_confirmed_witness :
    keyedLookup (fun g : ObjectGroup => g.name) c3Grp.name c3Ogs = some c3Grp ∧
    c3Grp.type = "service" ∧
    c3Grp.objects.isEmpty = false ∧
    serviceGroupScan c3Lines c3Grp.name = ([80], [53]) ∧
    (createPortIdentitiesForGroup c3Lines c3Ogs c3Acc c3Grp).portIds =
      c3Acc.portIds ++
        [⟨generateId c3Acc.counter, strCat c3Grp.name "-TCP", [⟨80, 80⟩]⟩,
         ⟨generateId (c3Acc.counter + 1), strCat c3Grp.name "-UDP", [⟨53, 53⟩]⟩] ∧
    ((convertAclRule c3State c3Rule 0 none none).1).map (fun fr => (fr.protocols, fr.dstPort)) =
      [([6], [generateId c3Acc.counter]), ([17], [generateId (c3Acc.counter + 1)])] := by
  have h := C3_confirmed c3Lines c3Ogs c3Acc c3Grp (by decide) (by decide) (by decide) (by decide)
  exact ⟨by decide, by decide, by decide, by decide, h.1,
    h.2 c3State c3Rule 0 none none rfl rfl rfl (by decide)⟩

lemma createIdentities_fields (s : ConvState) :
    (createIdentities s).acls = s.acls ∧
    (createIdentities s).policy_maps = s.policy_maps ∧
    (createIdentities s).zone_pairs = s.zone_pairs ∧
    (createIdentities s).filter_policies = s.filter_policies ∧
    (createIdentities s).zone_forwardings = s.zone_forwardings ∧
    (createIdentities s).class_maps = s.class_maps := by
  unfold createIdentities
  exact ⟨rfl, rfl, rfl, rfl, rfl, rfl⟩

lemma createFilterPolicies_of_empty (s : ConvState)
    (ha : s.acls = []) (hp : s.policy_maps = []) (hf : s.filter_policies = []) :
    createFilterPolicies s =
      { s with counter := s.counter + 2,
               filter_policies :=
                 [⟨generateId s.counter, "Default Allow All", "deny", [defaultAllowRule]⟩,
                  ⟨generateId (s.counter + 1), "Default Deny All", "deny", [defaultDenyRule]⟩] } := by
  unfold createFilterPolicies
  simp only [ha, hp, hf, List.foldl_nil, List.isEmpty_nil, if_true]

lemma createZoneForwardings_of_no_pairs (s : ConvState) (h : s.zone_pairs = []) :
    createZoneForwardings s = s := by
  unfold createZoneForwardings
  rw [h]
  rfl

/-- Claim C6 amended: with zero ACLs, zero policy maps AND zero zone
pairs, the output document contains exactly the two synthesized policies
`Default Allow All` (default_action deny, one allow rule at priority 10)
and `Default Deny All` (default_action deny, one deny rule at priority
20), in that order, and zero zone forwardings. -/
theorem C6_amended (lines : List String) (izName : String)
    (ha : parseAcls lines = []) (hp : parsePolicyMaps lines = [])
    (hz : parseZonePairs lines = []) :
    (convertConfig lines false izName).filter_policies.map
        (fun p => (p.name, p.default_action, p.rules)) =
      [("Default Allow All", "deny", [defaultAllowRule]),
       ("Default Deny All", "deny", [defaultDenyRule])] ∧
    (convertConfig lines false izName).forwardings = [] := by
  unfold convertConfig parseConfig
  dsimp only
  obtain ⟨h1, h2, h3, h4, h5, h6⟩ := createIdentities_fields
    { config_lines := lines, zones := (parseZones lines 0).1, zone_forwardings := [],
      filter_policies := [], acls := parseAcls lines, class_maps := parseClassMaps lines,
      object_groups := parseObjectGroups lines, policy_maps := parsePolicyMaps lines,
      zone_pairs := parseZonePairs lines, ipIdentities := [], portIdentities := [],
      object_group_to_identity := [], counter := (parseZones lines 0).2 }
  rw [createFilterPolicies_of_empty _ (by rw [h1]; exact ha) (by rw [h2]; exact hp) h4]
  rw [createZoneForwardings_of_no_pairs _ (by dsimp only; rw [h3]; exact hz)]
  constructor
  · rw [show (generateCradlepointConfig _).filter_policies =
        sortedFilterPolicies _ from rfl]
    simp [sortedFilterPolicies, allowNamedB]
  · rw [show (generateCradlepointConfig _).forwardings = _ from rfl]
    exact h5

/-- Claim C6 amended, concrete witness: the empty configuration. -/
theorem C6_amended_witness :
    parseAcls [] = [] ∧ parsePolicyMaps [] = [] ∧ parseZonePairs [] = [] ∧
    ((convertConfig [] false "EXT-Internet").filter_policies.map
        (fun p => (p.name, p.default_action, p.rules)) =
      [("Default Allow All", "deny", [defaultAllowRule]),
       ("Default Deny All", "deny", [defaultDenyRule])] ∧
     (convertConfig [] false "EXT-Internet").forwardings = []) :=
  ⟨rfl, rfl, rfl, C6_amended [] "EXT-Internet" rfl rfl rfl⟩

def c1RuleA : FilterRule :=
  { action := "allow", name := "WEB-1", priority := 0, protocols := [6],
    srcIp := ["id-src"], srcPort := ["id-port80"], dstIp := ["id-dstA"], dstPort := [] }

def c1RuleB : FilterRule :=
  { c1RuleA with name := "WEB-2", dstIp := ["id-dstB"] }

/-- Claim C1 counterexample: two rules identical in action, protocol and
port but differing in their destination-IP identity set are NOT merged by
`consolidateRules` — the documented grouping key includes the
destination-IP-identity-set, so they land in distinct groups and both
survive unchanged. -/
theorem C1_counterexample :
    consolidateRules [c1RuleA, c1RuleB] = [c1RuleA, c1RuleB] := by rfl

/-- Claim C1 amended: two rules sharing the full composite grouping key
`ruleGroupKey` (action, protocol-id set, port-identity-set key,
src-ip-identity-set key, dst-ip-identity-set key) are merged by
`consolidateRules` into a single rule whose four identity lists are the
duplicate-free unions (`dedupKeepFirst`) of the two rules' lists. -/
theorem C1_amended (r1 r2 : FilterRule) (h : ruleGroupKey r1 = ruleGroupKey r2) :
    consolidateRules [r1, r2] =
      [{ r1 with srcIp := dedupKeepFirst (r1.srcIp ++ r2.srcIp),
                 dstIp := dedupKeepFirst (r1.dstIp ++ r2.dstIp),
                 srcPort := dedupKeepFirst (r1.srcPort ++ r2.srcPort),
                 dstPort := dedupKeepFirst (r1.dstPort ++ r2.dstPort) }] := by
  simp only [consolidateRules, List.foldl, groupInsert, ← h, beq_self_eq_true, if_pos]
  simp [mergeRules, handleDuplicateRuleNames, List.range, List.range.loop, dummyFilterRule]

def c1RuleC : FilterRule := { c1RuleA with name := "WEB-3", priority := 10 }

/-- Claim C1 amended, concrete witness: two rules differing only in name
and priority share a grouping key and merge into one rule. -/
theorem C1_amended_witness :
    ruleGroupKey c1RuleA = ruleGroupKey c1RuleC ∧
    consolidateRules [c1RuleA, c1RuleC] =
      [{ c1RuleA with srcIp := dedupKeepFirst (c1RuleA.srcIp ++ c1RuleC.srcIp),
                      dstIp := dedupKeepFirst (c1RuleA.dstIp ++ c1RuleC.dstIp),
                      srcPort := dedupKeepFirst (c1RuleA.srcPort ++ c1RuleC.srcPort),
                      dstPort := dedupKeepFirst (c1RuleA.dstPort ++ c1RuleC.dstPort) }] :=
  ⟨rfl, C1_amended c1RuleA c1RuleC rfl⟩

def c2UnmatchedRule : AclRule :=
  { action := "allow", protocol := "tcp", protocol_id := 6 }

/-- Claim C2 counterexample: the tokenized line `permit tcp any any eq 80`
matches none of the seven documented shapes, yet `parseAclRule` returns a
partial rule record (action/protocol only) rather than `none`, and
`parseAcls` appends that record to the containing ACL. -/
theorem C2_counterexample :
    parseAclRule "permit tcp any any eq 80" = some c2UnmatchedRule ∧
    parseAcls ["ip access-list extended T", "permit tcp any any eq 80"] =
      [⟨"T", [c2UnmatchedRule]⟩] := by exact ⟨rfl, rfl⟩

lemma startsWith_action_excludes (t : String)
    (h : pyStartsWith t "permit " = true ∨ pyStartsWith t "deny " = true) :
    (t == "" || pyStartsWith t "!") = false := by
  match hd : t.data with
  | [] =>
    exfalso
    rcases h with h | h <;>
      (unfold pyStartsWith at h; rw [hd] at h; simp [List.isPrefixOf] at h)
  | c :: cs =>
    have hne : t ≠ "" := by
      intro he
      rw [he] at hd
      exact List.cons_ne_nil c cs hd.symm
    have hc : c = 'p' ∨ c = 'd' := by
      rcases h with h | h <;>
        (unfold pyStartsWith at h; rw [hd] at h; simp [List.isPrefixOf] at h)
      · exact Or.inl h.1.symm
      · exact Or.inr h.1.symm
    have hb : pyStartsWith t "!" = false := by
      unfold pyStartsWith
      rw [hd]
      rcases hc with hc | hc <;> simp [List.isPrefixOf, hc]
    simp [hne, hb]

/-- Claim C2 amended: for every line whose stripped text starts with
`permit ` or `deny `, `parseAclRule` returns `some` rule — the parser
never returns `None` for an action line, unmatched shapes included; only
non-action lines yield `none`. -/
theorem C2_amended (line : String)
    (h : pyStartsWith (pyStrip line) "permit " = true ∨
         pyStartsWith (pyStrip line) "deny " = true) :
    (parseAclRule line).isSome = true := by
  unfold parseAclRule
  have hx := startsWith_action_excludes (pyStrip line) h
  simp only [hx, Bool.false_eq_true, if_false]
  rcases h with h | h <;> simp [h]

/-- Claim C2 amended, concrete witness: the unmatched-shape action line
` permit gre any any ` still parses to `some` rule. -/
theorem C2_amended_witness :
    (pyStartsWith (pyStrip " permit gre any any ") "permit " = true ∨
     pyStartsWith (pyStrip " permit gre any any ") "deny " = true) ∧
    (parseAclRule " permit gre any any ").isSome = true :=
  ⟨Or.inl (by decide), C2_amended " permit gre any any " (Or.inl (by decide))⟩

/-- Claim C4 counterexample: on the empty input configuration the
converter's own validator reports two errors (`No zones found`,
`No zone forwardings found`), so self-produced output does not always
validate cleanly. -/
theorem C4_counterexample :
    validateAgainstDtd (convertConfig [] false "EXT-Internet") =
      ["No zones found", "No zone forwardings found"] := by rfl

lemma createIdentities_policies (s : ConvState) :
    (createIdentities s).filter_policies = s.filter_policies := rfl

lemma forwardingStep_policies (st : ConvState) (pair : ZonePair) :
    (forwardingStep st pair).filter_policies = st.filter_policies := rfl

lemma foldl_forwardingStep_policies (pairs : List ZonePair) :
    ∀ st : ConvState, (List.foldl forwardingStep st pairs).filter_policies = st.filter_policies := by
  induction pairs with
  | nil => intro st; rfl
  | cons p ps ih => intro st; rw [List.foldl_cons, ih, forwardingStep_policies]

lemma createZoneForwardings_policies (s : ConvState) :
    (createZoneForwardings s).filter_policies = s.filter_policies := by
  unfold createZoneForwardings
  exact foldl_forwardingStep_policies s.zone_pairs s

lemma createFilterPolicies_nonempty (s : ConvState) :
    (createFilterPolicies s).filter_policies.isEmpty = false := by
  unfold createFilterPolicies
  dsimp only
  split
  · rfl
  · next hcond => exact Bool.eq_false_iff.mpr hcond

lemma internetForwardStep_policies (izId aid : String) (st : ConvState) (z : Zone) :
    (internetForwardStep izId aid st z).filter_policies = st.filter_policies := by
  unfold internetForwardStep
  split <;> rfl

lemma foldl_internetForwardStep_policies (izId aid : String) (zs : List Zone) :
    ∀ st : ConvState,
      (List.foldl (internetForwardStep izId aid) st zs).filter_policies = st.filter_policies := by
  induction zs with
  | nil => intro st; rfl
  | cons z zs ih => intro st; rw [List.foldl_cons, ih, internetForwardStep_policies]

lemma ensureAllowPolicy_policies_nonempty (s : ConvState)
    (h : s.filter_policies.isEmpty = false) :
    (ensureAllowPolicy s).2.filter_policies.isEmpty = false := by
  unfold ensureAllowPolicy
  cases hf : s.filter_policies.find? (fun p : FilterPolicy => p.name == "Default Allow All") with
  | some p => exact h
  | none => simp

lemma createInternetZone_policies_nonempty (s : ConvState) (izn : String)
    (h : s.filter_policies.isEmpty = false) :
    (createInternetZone s izn).filter_policies.isEmpty = false := by
  unfold createInternetZone
  dsimp only
  rw [foldl_internetForwardStep_policies]
  exact ensureAllowPolicy_policies_nonempty _ h

lemma sortedFilterPolicies_nonempty (ps : List FilterPolicy) (h : ps.isEmpty = false) :
    (sortedFilterPolicies ps).isEmpty = false := by
  unfold sortedFilterPolicies
  cases hf : ps.find? allowNamedB with
  | some p => simp
  | none =>
    have heq : ps.filter (fun p => !allowNamedB p) = ps := by
      rw [List.filter_eq_self]
      intro a ha
      simpa using List.find?_eq_none.mp hf a ha
    simpa [heq] using h

/-- Claim C4 amended: the filter-policy non-emptiness part of the claim
does hold for every input — `createFilterPolicies` synthesizes the two
default policies when nothing was produced, every later pass preserves
policy non-emptiness, and the emitter's reordering keeps at least one
policy. Zone and forwarding non-emptiness fail on inputs with no zones
or no zone pairs (see the counterexample). -/
theorem C4_amended (lines : List String) (addIZ : Bool) (izName : String) :
    ((convertConfig lines addIZ izName).filter_policies).isEmpty = false := by
  unfold convertConfig generateCradlepointConfig
  apply sortedFilterPolicies_nonempty
  unfold parseConfig
  dsimp only
  split
  · apply createInternetZone_policies_nonempty
    rw [createZoneForwardings_policies]
    exact createFilterPolicies_nonempty _
  · rw [createZoneForwardings_policies]
    exact createFilterPolicies_nonempty _

def c5Lines : List String :=
  ["zone-pair security A source X destination Y",
   "zone-pair security B source X destination Y",
   "zone-pair security A source Y destination X",
   "service-policy type inspect PM"]

/-- Claim C5 counterexample: after pair `A` is redeclared, a following
`service-policy` directive binds the policy map to the LAST STORED pair
(`B`, at the preserved dict position of `A`'s first declaration), not to
the most recently declared pair (`A`). -/
theorem C5_counterexample :
    parseZonePairs c5Lines =
      [⟨"A", "Y", "X", none⟩, ⟨"B", "X", "Y", some "PM"⟩] := by rfl

/-- Claim C5 amended: a `service-policy type inspect <name>` directive
updates the policy_map of the last entry of the pair DICT (insertion
order, redeclarations updating in place) via `updateLastPolicy`, and has
no effect when no zone pair exists yet. -/
theorem C5_amended (L : List String) :
    parseZonePairs (L ++ ["service-policy type inspect PMAP"]) =
      (if (parseZonePairs L).isEmpty then parseZonePairs L
       else updateLastPolicy "PMAP" (parseZonePairs L)) := by
  unfold parseZonePairs
  rw [List.foldl_append]
  rfl

def c6Lines : List String :=
  ["zone security A", "zone security B", "zone-pair security P source A destination B"]

/-- Claim C6 counterexample: a configuration with zero ACLs and zero
policy maps but one zone pair produces ONE zone forwarding, not zero —
`create_zone_forwardings` binds every parsed pair regardless of whether
any ACL or policy map existed. -/
theorem C6_counterexample :
    parseAcls c6Lines = [] ∧ parsePolicyMaps c6Lines = [] ∧
    (convertConfig c6Lines false "EXT-Internet").forwardings.length = 1 := by
  exact ⟨rfl, rfl, rfl⟩

def c8Lines : List String :=
  ["ip access-list extended ALLOW ALL", " permit ip any any",
   "ip access-list extended Default Allow All", " permit ip any any",
   "access-group ALLOW ALL", "access-group Default Allow All"]

/-- Claim C8 counterexample: with two applied ACLs named `ALLOW ALL` and
`Default Allow All`, the internal state holds both policies but the
emitted document holds only the first — the emitter's reordering DROPS
every allow-named policy other than the first, so "all other policies
follow" fails. -/
theorem C8_counterexample :
    (parseConfig c8Lines false "EXT-Internet").filter_policies.map (fun p => p.name) =
      ["ALLOW ALL", "Default Allow All"] ∧
    (convertConfig c8Lines false "EXT-Internet").filter_policies.map (fun p => p.name) =
      ["ALLOW ALL"] := by
  exact ⟨rfl, rfl⟩

/-- Claim C8 amended: when some policy is allow-named (`ALLOW ALL` or
`Default Allow All`), the first such policy is emitted at index 0 and is
followed by exactly the policies that are NOT allow-named, in insertion
order; further allow-named policies are dropped. -/
theorem C8_amended (s : ConvState) (p : FilterPolicy)
    (h : s.filter_policies.find? allowNamedB = some p) :
    (generateCradlepointConfig s).filter_policies.head? = some p ∧
    (generateCradlepointConfig s).filter_policies.drop 1 =
      s.filter_policies.filter (fun q => !allowNamedB q) := by
  unfold generateCradlepointConfig sortedFilterPolicies
  rw [h]
  constructor <;> rfl

def c8State : ConvState :=
  ⟨[], [], [], [⟨"u1", "ALLOW ALL", "allow", []⟩, ⟨"u2", "X", "deny", []⟩],
    [], [], [], [], [], [], [], [], 0⟩

/-- Claim C8 amended, concrete witness: an allow-named and a plain
policy. -/
theorem C8_amended_witness :
    c8State.filter_policies.find? allowNamedB = some ⟨"u1", "ALLOW ALL", "allow", []⟩ ∧
    ((generateCradlepointConfig c8State).filter_policies.head? =
        some ⟨"u1", "ALLOW ALL", "allow", []⟩ ∧
     (generateCradlepointConfig c8State).filter_policies.drop 1 =
       c8State.filter_policies.filter (fun q => !allowNamedB q)) :=
  ⟨by decide, C8_amended c8State ⟨"u1", "ALLOW ALL", "allow", []⟩ (by decide)⟩

def c9HostRule : AclRule :=
  { action := "allow", protocol := "tcp", protocol_id := 6,
    source_ip := some "any", destination_ip := some "10.0.0.5" }

/-- Claim C9: converting two ACL rules that both reference host 10.0.0.5
in a state with no prior `IP-10-0-0-5` identity creates the identity
once: both conversions attach the same identity id, the second conversion
leaves the state unchanged, and exactly one identity of that name exists
afterwards. -/
theorem C9_confirmed (s : ConvState)
    (h : ∀ idn ∈ s.ipIdentities, idn.name ≠ ipIdentityName "10.0.0.5") :
    (convertAclRule s c9HostRule 0 none none).1.map (fun r => r.dstIp) =
      [[generateId s.counter]] ∧
    (convertAclRule (convertAclRule s c9HostRule 0 none none).2 c9HostRule 1 none none).1.map
      (fun r => r.dstIp) = [[generateId s.counter]] ∧
    (convertAclRule (convertAclRule s c9HostRule 0 none none).2 c9HostRule 1 none none).2 =
      (convertAclRule s c9HostRule 0 none none).2 ∧
    ((convertAclRule s c9HostRule 0 none none).2.ipIdentities.filter
      (fun idn => idn.name == ipIdentityName "10.0.0.5")).length = 1 := by
  have hname : strCat "IP-" (pyReplace "10.0.0.5" "." "-") = ipIdentityName "10.0.0.5" := rfl
  have hv : isValidIpAddress "10.0.0.5" = true := by decide
  have hfind : s.ipIdentities.find? (fun idn => idn.name == ipIdentityName "10.0.0.5") = none := by
    rw [List.find?_eq_none]
    intro x hx
    simpa using h x hx
  have hfilter : s.ipIdentities.filter (fun idn => idn.name == ipIdentityName "10.0.0.5") = [] := by
    rw [List.filter_eq_nil_iff]
    intro x hx
    simpa using h x hx
  unfold convertAclRule c9HostRule resolveSrcIdentities resolveDstIdentities
  unfold resolveSrcPortIdentities resolveNonServiceDstPorts getOrCreateIpIdentity
  simp only [hname, hv]
  simp [hfind, hfilter, List.find?_append, List.filter_append]

def c9State : ConvState := ⟨[], [], [], [], [], [], [], [], [], [], [], [], 0⟩

/-- Claim C9, concrete witness: the empty initial state. -/
theorem C9_confirmed_witness :
    (∀ idn ∈ c9State.ipIdentities, idn.name ≠ ipIdentityName "10.0.0.5") ∧
    (((convertAclRule c9State c9HostRule 0 none none).1.map (fun r => r.dstIp) =
        [[generateId c9State.counter]]) ∧
     ((convertAclRule (convertAclRule c9State c9HostRule 0 none none).2 c9HostRule 1
          none none).1.map (fun r => r.dstIp) = [[generateId c9State.counter]]) ∧
     ((convertAclRule (convertAclRule c9State c9HostRule 0 none none).2 c9HostRule 1
          none none).2 = (convertAclRule c9State c9HostRule 0 none none).2) ∧
     (((convertAclRule c9State c9HostRule 0 none none).2.ipIdentities.filter
        (fun idn => idn.name == ipIdentityName "10.0.0.5")).length = 1)) :=
  ⟨by simp [c9State], C9_confirmed c9State (by simp [c9State])⟩

/-- Proof helper: the internet-zone loop's forwarding tail. -/
def internetFwdTail (izId aid : String) : Nat → List Zone → List ZoneForwarding
  | _, [] => []
  | c, z :: zs =>
    if z.uid != izId then
      ⟨generateId c, z.uid, izId, true, aid⟩ :: internetFwdTail izId aid (c + 1) zs
    else internetFwdTail izId aid c zs

lemma internetForwardStep_pos (izId aid : String) (st : ConvState) (z : Zone)
    (hz : (z.uid != izId) = true) :
    internetForwardStep izId aid st z =
      { st with counter := st.counter + 1,
                zone_forwardings :=
                  st.zone_forwardings ++ [⟨generateId st.counter, z.uid, izId, true, aid⟩] } := by
  unfold internetForwardStep
  simp [hz]

lemma internetForwardStep_neg (izId aid : String) (st : ConvState) (z : Zone)
    (hz : (z.uid != izId) = false) :
    internetForwardStep izId aid st z = st := by
  unfold internetForwardStep
  simp [hz]

lemma foldl_internetForwardStep_fwds (izId aid : String) (zs : List Zone) :
    ∀ st : ConvState,
      (List.foldl (internetForwardStep izId aid) st zs).zone_forwardings =
        st.zone_forwardings ++ internetFwdTail izId aid st.counter zs := by
  induction zs with
  | nil => intro st; simp [internetFwdTail]
  | cons z zs ih =>
    intro st
    rw [List.foldl_cons, ih]
    by_cases hz : (z.uid != izId) = true
    · rw [internetForwardStep_pos izId aid st z hz]
      have hne : z.uid ≠ izId := bne_iff_ne.mp hz
      simp [internetFwdTail, hne]
    · have hz2 : (z.uid != izId) = false := Bool.eq_false_iff.mpr hz
      rw [internetForwardStep_neg izId aid st z hz2]
      have heq : z.uid = izId := by simpa using hz2
      simp [internetFwdTail, heq]

lemma internetFwdTail_cons_pass (izId aid : String) (z : Zone) (hne : z.uid ≠ izId)
    (c : Nat) (rest : List Zone) :
    internetFwdTail izId aid c (z :: rest) =
      ⟨generateId c, z.uid, izId, true, aid⟩ :: internetFwdTail izId aid (c + 1) rest := by
  simp [internetFwdTail, hne]

lemma internetFwdTail_props (izId aid nm : String) (zs : List Zone)
    (h : ∀ z ∈ zs, z.uid ≠ izId) :
    ∀ c : Nat,
      (internetFwdTail izId aid c (zs ++ [⟨izId, nm⟩])).map
          (fun f => (f.src_zone_id, f.dst_zone_id, f.enabled, f.filter_policy_id)) =
        zs.map (fun z => (z.uid, izId, true, aid)) ∧
      (internetFwdTail izId aid c (zs ++ [⟨izId, nm⟩])).length = zs.length ∧
      ∀ f ∈ internetFwdTail izId aid c (zs ++ [⟨izId, nm⟩]), f.src_zone_id ≠ izId := by
  induction zs with
  | nil =>
    intro c
    simp [internetFwdTail]
  | cons z zs ih =>
    intro c
    have hne : z.uid ≠ izId := h z (by simp)
    have hrest : ∀ w ∈ zs, w.uid ≠ izId := fun w hw => h w (by simp [hw])
    obtain ⟨ih1, ih2, ih3⟩ := ih hrest (c + 1)
    rw [List.cons_append, internetFwdTail_cons_pass izId aid z hne]
    refine ⟨by simp [ih1], by simp [ih2], ?_⟩
    intro f hf
    rcases List.mem_cons.mp hf with hm | hm
    · rw [hm]
      exact hne
    · exact ih3 f hm

lemma ensureAllowPolicy_some (s : ConvState) (p : FilterPolicy)
    (hf : s.filter_policies.find? (fun q : FilterPolicy => q.name == "Default Allow All") = some p) :
    ensureAllowPolicy s = (p.uid, s) := by
  unfold ensureAllowPolicy
  rw [hf]

lemma ensureAllowPolicy_none (s : ConvState)
    (hf : s.filter_policies.find? (fun q : FilterPolicy => q.name == "Default Allow All") = none) :
    ensureAllowPolicy s =
      (generateId s.counter,
        { s with counter := s.counter + 1,
                 filter_policies :=
                   s.filter_policies ++ [⟨generateId s.counter, "ALLOW ALL", "allow", []⟩] }) := by
  unfold ensureAllowPolicy
  rw [hf]

/-- Claim C7: when the freshly generated internet-zone id collides with no
existing zone id, the internet-zone pass appends exactly N forwardings
(N = number of pre-existing zones), one from each pre-existing zone to
the new zone and none from the new zone to itself, all enabled and all
bound to the `Default Allow All` policy when one exists, otherwise to a
newly created `ALLOW ALL` policy with empty rules and default action
allow. -/
theorem C7_confirmed (s : ConvState) (izn : String)
    (hfresh : ∀ z ∈ s.zones, z.uid ≠ generateId s.counter) :
    (createInternetZone s izn).zone_forwardings.length =
      s.zone_forwardings.length + s.zones.length ∧
    ((createInternetZone s izn).zone_forwardings.drop s.zone_forwardings.length).map
        (fun f => (f.src_zone_id, f.dst_zone_id, f.enabled, f.filter_policy_id)) =
      s.zones.map (fun z =>
        (z.uid, generateId s.counter, true,
          match s.filter_policies.find? (fun p : FilterPolicy => p.name == "Default Allow All") with
          | some p => p.uid
          | none => generateId (s.counter + 1))) ∧
    (∀ f ∈ (createInternetZone s izn).zone_forwardings.drop s.zone_forwardings.length,
      f.src_zone_id ≠ generateId s.counter) ∧
    (match s.filter_policies.find? (fun p : FilterPolicy => p.name == "Default Allow All") with
     | some _ => (createInternetZone s izn).filter_policies = s.filter_policies
     | none => (createInternetZone s izn).filter_policies =
         s.filter_policies ++ [⟨generateId (s.counter + 1), "ALLOW ALL", "allow", []⟩]) := by
  unfold createInternetZone
  dsimp only
  cases hf : s.filter_policies.find? (fun p : FilterPolicy => p.name == "Default Allow All") with
  | some p =>
    rw [ensureAllowPolicy_some (addInternetZone s izn) p hf]
    dsimp only
    rw [foldl_internetForwardStep_fwds]
    obtain ⟨hp1, hp2, hp3⟩ :=
      internetFwdTail_props (generateId s.counter) p.uid izn s.zones hfresh
        ((addInternetZone s izn).counter)
    refine ⟨?_, ?_, ?_, ?_⟩
    · simp only [addInternetZone, List.length_append]
      simpa using hp2
    · simp only [addInternetZone]
      rw [List.drop_left]
      exact hp1
    · simp only [addInternetZone]
      rw [List.drop_left]
      exact hp3
    · rw [foldl_internetForwardStep_policies]
      rfl
  | none =>
    rw [ensureAllowPolicy_none (addInternetZone s izn) hf]
    dsimp only
    rw [foldl_internetForwardStep_fwds]
    obtain ⟨hp1, hp2, hp3⟩ :=
      internetFwdTail_props (generateId s.counter) (generateId (s.counter + 1)) izn
        s.zones hfresh ((addInternetZone s izn).counter + 1)
    refine ⟨?_, ?_, ?_, ?_⟩
    · simp only [addInternetZone, List.length_append]
      simpa using hp2
    · simp only [addInternetZone]
      rw [List.drop_left]
      exact hp1
    · simp only [addInternetZone]
      rw [List.drop_left]
      exact hp3
    · rw [foldl_internetForwardStep_policies]
      rfl

def c7State : ConvState :=
  ⟨[], [⟨"z1", "LAN"⟩, ⟨"z2", "DMZ"⟩], [], [], [], [], [], [], [], [], [], [], 0⟩

/-- Claim C7, concrete witness: two zones, no pre-existing policies. -/
theorem C7_confirmed_witness :
    (∀ z ∈ c7State.zones, z.uid ≠ generateId c7State.counter) ∧
    ((createInternetZone c7State "EXT-Internet").zone_forwardings.length =
        c7State.zone_forwardings.length + c7State.zones.length ∧
     ((createInternetZone c7State "EXT-Internet").zone_forwardings.drop
          c7State.zone_forwardings.length).map
        (fun f => (f.src_zone_id, f.dst_zone_id, f.enabled, f.filter_policy_id)) =
      c7State.zones.map (fun z =>
        (z.uid, generateId c7State.counter, true,
          match c7State.filter_policies.find?
              (fun p : FilterPolicy => p.name == "Default Allow All") with
          | some p => p.uid
          | none => generateId (c7State.counter + 1))) ∧
     (∀ f ∈ (createInternetZone c7State "EXT-Internet").zone_forwardings.drop
          c7State.zone_forwardings.length,
        f.src_zone_id ≠ generateId c7State.counter) ∧
     (match c7State.filter_policies.find?
          (fun p : FilterPolicy => p.name == "Default Allow All") with
      | some _ => (createInternetZone c7State "EXT-Internet").filter_policies =
          c7State.filter_policies
      | none => (createInternetZone c7State "EXT-Internet").filter_policies =
          c7State.filter_policies ++
            [⟨generateId (c7State.counter + 1), "ALLOW ALL", "allow", []⟩])) :=
  ⟨by decide, C7_confirmed c7State "EXT-Internet" (by decide)⟩

lemma mem_foldl_forwardingStep (pairs : List ZonePair) :
    ∀ (st : ConvState) (f : ZoneForwarding),
      f ∈ (List.foldl forwardingStep st pairs).zone_forwardings →
      f ∈ st.zone_forwardings ∨ f.enabled = true := by
  induction pairs with
  | nil => intro st f hf; exact Or.inl hf
  | cons p ps ih =>
    intro st f hf
    rcases ih _ f hf with hmem | he
    · unfold forwardingStep at hmem
      simp only [List.mem_append, List.mem_singleton] at hmem
      rcases hmem with hm | hm
      · exact Or.inl hm
      · right; rw [hm]; rfl
    · exact Or.inr he

lemma mem_foldl_internetForwardStep (izId aid : String) (zs : List Zone) :
    ∀ (st : ConvState) (f : ZoneForwarding),
      f ∈ (List.foldl (internetForwardStep izId aid) st zs).zone_forwardings →
      f ∈ st.zone_forwardings ∨ f.enabled = true := by
  induction zs with
  | nil => intro st f hf; exact Or.inl hf
  | cons z zs ih =>
    intro st f hf
    rcases ih _ f hf with hmem | he
    · unfold internetForwardStep at hmem
      by_cases hz : (z.uid != izId) = true
      · simp only [hz, if_true, List.mem_append, List.mem_singleton] at hmem
        rcases hmem with hm | hm
        · exact Or.inl hm
        · right; rw [hm]
      · simp only [hz] at hmem
        exact Or.inl hmem
    · exact Or.inr he

lemma ensureAllowPolicy_fwds (s : ConvState) :
    (ensureAllowPolicy s).2.zone_forwardings = s.zone_forwardings := by
  unfold ensureAllowPolicy
  cases hf : s.filter_policies.find? (fun p : FilterPolicy => p.name == "Default Allow All") <;> rfl

lemma foldl_pairZoneStep_fst (pair : ZonePair) (zs : List Zone)
    (h : ∀ z ∈ zs, z.name ≠ pair.source_zone) :
    ∀ acc : Option String × Option String,
      (List.foldl (pairZoneStep pair) acc zs).1 = acc.1 := by
  induction zs with
  | nil => intro acc; rfl
  | cons z zs ih =>
    intro acc
    rw [List.foldl_cons]
    have hz : (z.name == pair.source_zone) = false := by
      simpa using h z (by simp)
    rw [ih (fun w hw => h w (by simp [hw]))]
    unfold pairZoneStep
    rw [hz]
    simp only [Bool.false_eq_true, if_false]
    split <;> rfl

lemma foldl_pairZoneStep_snd (pair : ZonePair) (zs : List Zone)
    (h : ∀ z ∈ zs, z.name ≠ pair.destination_zone) :
    ∀ acc : Option String × Option String,
      (List.foldl (pairZoneStep pair) acc zs).2 = acc.2 := by
  induction zs with
  | nil => intro acc; rfl
  | cons z zs ih =>
    intro acc
    rw [List.foldl_cons]
    have hz : (z.name == pair.destination_zone) = false := by
      simpa using h z (by simp)
    rw [ih (fun w hw => h w (by simp [hw]))]
    unfold pairZoneStep
    split
    · rfl
    · rw [hz]; simp

lemma resolvePairPolicy_none (policies : List FilterPolicy) (pair : ZonePair)
    (h : ∀ p ∈ policies, some p.name ≠ pair.policy_map ∧ p.name ≠ "Default Deny All") :
    resolvePairPolicy policies pair = none := by
  unfold resolvePairPolicy
  have hd : policies.find? (fun p : FilterPolicy => p.name == "Default Deny All") = none := by
    rw [List.find?_eq_none]
    intro x hx
    simpa using (h x hx).2
  cases hpm : pair.policy_map with
  | none => simp [hd]
  | some pm =>
    by_cases hpe : pm = ""
    · simp [hpe, hd]
    · have hfind : policies.find? (fun p : FilterPolicy => p.name == pm) = none := by
        rw [List.find?_eq_none]
        intro x hx
        have := (h x hx).1
        rw [hpm] at this
        simpa using fun hEq => this (by rw [hEq])
      simp [hpe, hfind, hd]

/-- Claim C10: every forwarding built by the zone-pair pass or the
internet-zone pass is enabled, and in the record built for a zone pair an
unresolvable source zone, destination zone or policy yields the empty
string in the corresponding field rather than an omitted field or an
error. -/
theorem C10_confirmed :
    (∀ (s : ConvState) (f : ZoneForwarding),
        f ∈ (createZoneForwardings s).zone_forwardings →
        f ∈ s.zone_forwardings ∨ f.enabled = true) ∧
    (∀ (s : ConvState) (izn : String) (f : ZoneForwarding),
        f ∈ (createInternetZone s izn).zone_forwardings →
        f ∈ s.zone_forwardings ∨ f.enabled = true) ∧
    (∀ (zones : List Zone) (policies : List FilterPolicy) (fid : String) (pair : ZonePair),
        ((∀ z ∈ zones, z.name ≠ pair.source_zone) →
          (mkForwardingForPair zones policies fid pair).src_zone_id = "") ∧
        ((∀ z ∈ zones, z.name ≠ pair.destination_zone) →
          (mkForwardingForPair zones policies fid pair).dst_zone_id = "") ∧
        ((∀ p ∈ policies, some p.name ≠ pair.policy_map ∧ p.name ≠ "Default Deny All") →
          (mkForwardingForPair zones policies fid pair).filter_policy_id = "")) := by
  refine ⟨?_, ?_, ?_⟩
  · intro s f hf
    exact mem_foldl_forwardingStep s.zone_pairs s f hf
  · intro s izn f hf
    unfold createInternetZone at hf
    dsimp only at hf
    rcases mem_foldl_internetForwardStep _ _ _ _ f hf with hmem | he
    · rw [ensureAllowPolicy_fwds] at hmem
      exact Or.inl hmem
    · exact Or.inr he
  · intro zones policies fid pair
    refine ⟨?_, ?_, ?_⟩
    · intro h
      unfold mkForwardingForPair resolvePairZones
      dsimp only
      rw [foldl_pairZoneStep_fst pair zones h]
      rfl
    · intro h
      unfold mkForwardingForPair resolvePairZones
      dsimp only
      rw [foldl_pairZoneStep_snd pair zones h]
      rfl
    · intro h
      unfold mkForwardingForPair
      dsimp only
      rw [resolvePairPolicy_none policies pair h]
      rfl
